import Mathlib

/-!
# Dino-AISS: verification of the core data model, scoring, rules and remediation

Shallow embedding of the Rust sources of the Dino-AISS configuration scanner
(`src/models.rs`, `src/config.rs`, `src/fixer.rs`, `src/scanner/*.rs`,
`src/main.rs`).  JSON trees (`serde_json::Value`) are modelled by the
inductive `Json`; object maps follow `serde_json`'s default `BTreeMap`
backing (keys kept sorted, insertion of an existing key replaces in place).
Machine integers that matter (the health score) stay within [0,100] at all
times, so `Int` models `i32` exactly.
-/

set_option maxHeartbeats 1000000

namespace DinoAiss

/-- Model of `serde_json::Value`: a decoded generic JSON tree.
Numbers are modelled as integers (no claim in this development touches
non-integer numerics). -/
inductive Json where
  | null
  | bool (b : Bool)
  | num (n : Int)
  | str (s : String)
  | arr (elems : List Json)
  | obj (fields : List (String × Json))

/-- First-match lookup in an object field list (`serde_json::Map::get`). -/
def objLookup : List (String × Json) → String → Option Json
  | [], _ => none
  | (k', v') :: t, k => if k = k' then some v' else objLookup t k

/-- Lexicographic order on character lists by Unicode scalar value (equal to
the UTF-8 byte order `BTreeMap<String, _>` sorts by). -/
def charsLt : List Char → List Char → Bool
  | [], [] => false
  | [], _ :: _ => true
  | _ :: _, [] => false
  | a :: as, b :: bs =>
    if a.val.toNat < b.val.toNat then true
    else if b.val.toNat < a.val.toNat then false
    else charsLt as bs

/-- String order used by the `BTreeMap` object backing. -/
def strLt (a b : String) : Bool :=
  charsLt a.data b.data

/-- Sorted-map insertion (`serde_json::Map::insert` over the default
`BTreeMap` backing): replace in place when the key is present, otherwise
insert at the sorted position. -/
def objInsert : List (String × Json) → String → Json → List (String × Json)
  | [], k, v => [(k, v)]
  | (k', v') :: t, k, v =>
    if k = k' then (k, v) :: t
    else if strLt k k' then (k, v) :: (k', v') :: t
    else (k', v') :: objInsert t k v

/-- `Value::get(key)`: `None` on anything that is not an object. -/
def jsonGet (j : Json) (k : String) : Option Json :=
  match j with
  | .obj l => objLookup l k
  | _ => none

/-- Insert a key into a JSON value when it is an object
(`as_object_mut` followed by `insert`); any other value is left unchanged,
mirroring the `if let Some(obj) = config.as_object_mut()` pattern. -/
def jsonInsert (j : Json) (k : String) (v : Json) : Json :=
  match j with
  | .obj l => .obj (objInsert l k v)
  | _ => j

/-- `Value::as_str`. -/
def Json.asStr : Json → Option String
  | .str s => some s
  | _ => none

/-- `Value::as_bool`. -/
def Json.asBool : Json → Option Bool
  | .bool b => some b
  | _ => none

/-- `Value::as_array`. -/
def Json.asArr : Json → Option (List Json)
  | .arr xs => some xs
  | _ => none

/-- `Value::as_object`, kept as the same `Json` value so that subsequent
`get` calls read identically to the source. -/
def Json.asObjO : Json → Option Json
  | .obj l => some (.obj l)
  | _ => none

/-- `Value::as_object` exposing the field list. -/
def Json.asObjFields : Json → Option (List (String × Json))
  | .obj l => some l
  | _ => none

/-- `Value::as_u64`: integers that are non-negative. -/
def Json.asU64 : Json → Option Int
  | .num n => if 0 ≤ n then some n else none
  | _ => none

/-- Follow a dotted path of keys through a JSON tree (used to state what a
remediation edit was supposed to produce). -/
def jsonGetPath (j : Json) : List String → Option Json
  | [] => some j
  | k :: rest =>
    match jsonGet j k with
    | some v => jsonGetPath v rest
    | none => none

/-! ## models.rs -/

/-- `Severity` (`src/models.rs`). -/
inductive Severity where
  | critical
  | high
  | medium
  | low
  | info
deriving DecidableEq, Repr

/-- `Severity::score` (`src/models.rs` lines 17–25). -/
def Severity.score : Severity → Int
  | .critical => -25
  | .high => -15
  | .medium => -10
  | .low => -5
  | .info => -2

/-- `Severity::as_str`. -/
def Severity.as_str : Severity → String
  | .critical => "critical"
  | .high => "high"
  | .medium => "medium"
  | .low => "low"
  | .info => "info"

/-- `Finding` (`src/models.rs`). -/
structure Finding where
  id : String
  module : String
  severity : Severity
  title : String
  description : String
  impact : String
  remediation : String
  config_path : String
  openclaw_aligned : Bool
  cve : Option String
deriving DecidableEq, Repr

/-- `Finding::new`: every constructed finding has `openclaw_aligned = true`
and no CVE. -/
def Finding.new (id module : String) (severity : Severity)
    (title description impact remediation config_path : String) : Finding :=
  { id := id, module := module, severity := severity, title := title,
    description := description, impact := impact, remediation := remediation,
    config_path := config_path, openclaw_aligned := true, cve := none }

/-- `Finding::with_cve`. -/
def Finding.with_cve (f : Finding) (cve : String) : Finding :=
  { f with cve := some cve }

/-- `ScanResult` (`src/models.rs`).  The `scan_time_seconds : f64` field is
wall-clock bookkeeping with no behavioural contract and is omitted from the
embedding (floating point, out of the claims' scope). -/
structure ScanResult where
  findings : List Finding
  health_score : Int
deriving DecidableEq, Repr

/-- `ScanResult::new`. -/
def ScanResult.new : ScanResult :=
  { findings := [], health_score := 100 }

/-- Rust `i32::clamp(0, 100)`. -/
def clampScore (x : Int) : Int :=
  if x < 0 then 0 else if 100 < x then 100 else x

/-- `ScanResult::add_finding` (`src/models.rs` lines 104–108): add the
severity weight, clamp to [0,100], push the finding. -/
def ScanResult.add_finding (r : ScanResult) (f : Finding) : ScanResult :=
  { findings := r.findings ++ [f],
    health_score := clampScore (r.health_score + f.severity.score) }

/-- `ScanResult::critical_count`. -/
def ScanResult.critical_count (r : ScanResult) : Nat :=
  (r.findings.filter (fun f => f.severity = .critical)).length

/-- `ScanResult::high_count`. -/
def ScanResult.high_count (r : ScanResult) : Nat :=
  (r.findings.filter (fun f => f.severity = .high)).length

/-- Total severity weight of a list of findings. -/
def weightSum (l : List Finding) : Int :=
  (l.map (fun f => f.severity.score)).sum

/-! ## fixer.rs -/

/-- `ConfigFix` (`src/fixer.rs`): a declarative `tree[path][key] = value`
edit. -/
structure ConfigFix where
  path : String
  key : String
  value : Json
  description : String

/-- The fix mapped to one finding id (`generate_fixes` match arms,
`src/fixer.rs` lines 22–98). -/
def fixForId : String → Option ConfigFix
  | "sandbox.mode_off" =>
    some ⟨"agents.defaults.sandbox", "mode", .str "docker", "Enable sandbox mode"⟩
  | "sandbox.workspace_rw" =>
    some ⟨"agents.defaults.sandbox", "workspaceAccess", .str "none",
      "Remove workspace write access"⟩
  | "sandbox.scope_shared" =>
    some ⟨"agents.defaults.sandbox", "scope", .str "agent",
      "Set sandbox scope to agent isolation"⟩
  | "tools.fs_workspace_only_disabled" =>
    some ⟨"tools.fs", "workspaceOnly", .bool true,
      "Enable file system workspace isolation"⟩
  | "tools.web_fetch_no_ssrf" =>
    some ⟨"tools.webFetch", "ssrfPolicy", .str "strict",
      "Enable strict SSRF protection for web fetch"⟩
  | "tools.web_search_no_ssrf" =>
    some ⟨"tools.webSearch", "ssrfPolicy", .str "strict",
      "Enable strict SSRF protection for web search"⟩
  | "tools.elevated_enabled" =>
    some ⟨"tools.elevated", "enabled", .bool false, "Disable elevated mode"⟩
  | "gateway.auth_none" =>
    some ⟨"gateway.auth", "mode", .str "token", "Enable token authentication"⟩
  | "gateway.bind_public" =>
    some ⟨"gateway", "bind", .str "loopback", "Bind to loopback only"⟩
  | "gateway.tailscale_funnel" =>
    some ⟨"gateway.tailscale", "funnel", .bool false, "Disable Tailscale Funnel"⟩
  | "session.dm_scope_main_multi_channel" | "session.dm_scope_default" =>
    some ⟨"session", "dmScope", .str "per-channel-peer",
      "Set DM scope to per-channel-peer"⟩
  | _ => none

/-- `generate_fixes` (`src/fixer.rs` lines 18–106): pure per-id lookup,
unmapped ids silently skipped. -/
def generate_fixes (findings : List Finding) : List ConfigFix :=
  findings.filterMap (fun f => fixForId f.id)

/-- Split a character list at `'.'` (helper for `path.split('.')`). -/
def splitCharsDot : List Char → List Char → List String
  | [], acc => [String.mk acc.reverse]
  | c :: rest, acc =>
    if c = '.' then String.mk acc.reverse :: splitCharsDot rest []
    else splitCharsDot rest (c :: acc)

/-- Rust `path.split('.').collect::<Vec<_>>()`. -/
def splitDot (s : String) : List String :=
  splitCharsDot s.data []

/-- `apply_fix_to_value` (`src/fixer.rs` lines 151–175), translated exactly:
the loop checks and inserts every non-final path segment *on the root value*
(the computed `target_idx` is dead), and the final insertion also happens on
the root object. -/
def apply_fix_to_value (config : Json) (path key : String) (value : Json) : Json :=
  jsonInsert
    ((splitDot path).dropLast.foldl
      (fun c part => if (jsonGet c part).isSome then c else jsonInsert c part (.obj []))
      config)
    key value

/-- The pure value transformation performed by `apply_fixes` on the decoded
document (the `for fix in fixes` loop, `src/fixer.rs` lines 132–134). -/
def applyFixesValue (fixes : List ConfigFix) (config : Json) : Json :=
  fixes.foldl (fun c f => apply_fix_to_value c f.path f.key f.value) config

/-- JSON string escaping for the serializers (quote and backslash; the
configuration strings relevant to the claims contain no control
characters). -/
def escChar (c : Char) : String :=
  if c = '"' then "\\\"" else if c = '\\' then "\\\\" else String.singleton c

/-- Escape a string for JSON output. -/
def escapeStr (s : String) : String :=
  String.join (s.data.map escChar)

mutual
/-- Compact serializer, modelling `serde_json::to_string` (used by the
credentials scanner's substring heuristic).  Object fields are emitted in
map order, matching `serde_json`'s sorted `BTreeMap` iteration. -/
def jsonToString : Json → String
  | .null => "null"
  | .bool b => if b then "true" else "false"
  | .num n => toString n
  | .str s => "\"" ++ escapeStr s ++ "\""
  | .arr xs => "[" ++ jsonArrBody xs ++ "]"
  | .obj l => "\x7b" ++ jsonObjBody l ++ "\x7d"

/-- Comma-separated array elements for `jsonToString`. -/
def jsonArrBody : List Json → String
  | [] => ""
  | [x] => jsonToString x
  | x :: xs => jsonToString x ++ "," ++ jsonArrBody xs

/-- Comma-separated object fields for `jsonToString`. -/
def jsonObjBody : List (String × Json) → String
  | [] => ""
  | [(k, v)] => "\"" ++ escapeStr k ++ "\":" ++ jsonToString v
  | (k, v) :: t => "\"" ++ escapeStr k ++ "\":" ++ jsonToString v ++ "," ++ jsonObjBody t
end

/-- `n` spaces of indentation. -/
def spaces (n : Nat) : String :=
  String.mk (List.replicate n ' ')

mutual
/-- Pretty serializer, modelling `serde_json::to_string_pretty` (the bytes
`apply_fixes` writes).  The claims depend only on this being a deterministic
function of the JSON value, not on the external library's exact layout. -/
def jsonPretty : Nat → Json → String
  | _, .null => "null"
  | _, .bool b => if b then "true" else "false"
  | _, .num n => toString n
  | _, .str s => "\"" ++ escapeStr s ++ "\""
  | _, .arr [] => "[]"
  | ind, .arr (x :: xs) =>
    "[\n" ++ jsonPrettyArrBody (ind + 2) (x :: xs) ++ "\n" ++ spaces ind ++ "]"
  | _, .obj [] => "\x7b\x7d"
  | ind, .obj ((k, v) :: t) =>
    "\x7b\n" ++ jsonPrettyObjBody (ind + 2) ((k, v) :: t) ++ "\n" ++ spaces ind ++ "\x7d"

/-- Indented array elements for `jsonPretty`. -/
def jsonPrettyArrBody : Nat → List Json → String
  | _, [] => ""
  | ind, [x] => spaces ind ++ jsonPretty ind x
  | ind, x :: xs =>
    spaces ind ++ jsonPretty ind x ++ ",\n" ++ jsonPrettyArrBody ind xs

/-- Indented object fields for `jsonPretty`. -/
def jsonPrettyObjBody : Nat → List (String × Json) → String
  | _, [] => ""
  | ind, [(k, v)] => spaces ind ++ "\"" ++ escapeStr k ++ "\": " ++ jsonPretty ind v
  | ind, (k, v) :: t =>
    spaces ind ++ "\"" ++ escapeStr k ++ "\": " ++ jsonPretty ind v ++ ",\n"
      ++ jsonPrettyObjBody ind t
end

/-- Top-level pretty serialization (`serde_json::to_string_pretty`). -/
def jsonSerializePretty (j : Json) : String :=
  jsonPretty 0 j

/-- Environment of external effects for `apply_fixes`: which paths
`fs::read_to_string` / `fs::write` succeed on, which values
`serde_json::to_string_pretty` accepts, and the external
`serde_json::from_str` decoder. -/
structure FsEnv where
  readable : String → Bool
  writable : String → Bool
  serializable : Json → Bool
  decode : String → Option Json

/-- Result of one `apply_fixes` call: the returned `Result<String, String>`,
the file system afterwards, and the ordered trace of file writes
performed. -/
structure ApplyOutcome where
  res : Except String String
  fs : String → Option String
  writes : List (String × String)

/-- Point update of the file-system map (`fs::write`, taken as an
atomic-intent whole-file write per the design). -/
def fsUpdate (fs : String → Option String) (p c : String) : String → Option String :=
  fun q => if q = p then some c else fs q

/-- `apply_fixes` (`src/fixer.rs` lines 109–149) over the file-system model:
existence check, read, parse, backup to `<path>.bak` (skipped on dry run),
apply the fixes to the decoded value, serialize, then overwrite the original
path (dry run returns the preview instead). -/
def apply_fixes (env : FsEnv) (fs : String → Option String) (config_path : String)
    (fixes : List ConfigFix) (dry_run : Bool) : ApplyOutcome :=
  match fs config_path with
  | none => ⟨.error ("Config file not found: " ++ config_path), fs, []⟩
  | some content =>
    if env.readable config_path = false then
      ⟨.error "Failed to read config", fs, []⟩
    else
      match env.decode content with
      | none => ⟨.error "Failed to parse config", fs, []⟩
      | some config =>
        let backup_path := config_path ++ ".bak"
        if dry_run then
          let config2 := applyFixesValue fixes config
          if env.serializable config2 = false then
            ⟨.error "Failed to serialize config", fs, []⟩
          else
            ⟨.ok ("DRY RUN - Would apply fixes:\n" ++ jsonSerializePretty config2),
              fs, []⟩
        else
          if env.writable backup_path = false then
            ⟨.error "Failed to create backup", fs, []⟩
          else
            let fs1 := fsUpdate fs backup_path content
            let config2 := applyFixesValue fixes config
            if env.serializable config2 = false then
              ⟨.error "Failed to serialize config", fs1, [(backup_path, content)]⟩
            else
              let result := jsonSerializePretty config2
              if env.writable config_path = false then
                ⟨.error "Failed to write config", fs1, [(backup_path, content)]⟩
              else
                ⟨.ok ("Applied fixes. Backup saved to: " ++ backup_path),
                  fsUpdate fs1 config_path result,
                  [(backup_path, content), (config_path, result)]⟩

/-- A decoder that inverts the pretty serializer on a document and on the
fixed document (standing in for `serde_json::from_str`, which round-trips
`to_string_pretty` output). -/
def roundtripDecode (fx : List ConfigFix) (v : Json) : String → Option Json :=
  fun s =>
    if s = jsonSerializePretty v then some v
    else if s = jsonSerializePretty (applyFixesValue fx v) then
      some (applyFixesValue fx v)
    else none

/-- A fully permissive environment with the round-trip decoder. -/
def roundtripEnv (fx : List ConfigFix) (v : Json) : FsEnv :=
  ⟨fun _ => true, fun _ => true, fun _ => true, roundtripDecode fx v⟩

/-- A file system holding exactly one file `cfg` containing the serialized
empty document. -/
def emptyDocFs : String → Option String :=
  fun p => if p = "cfg" then some (jsonSerializePretty (Json.obj [])) else none

/-- A fully permissive environment whose decoder maps every string to
`null` (used to instantiate theorems at concrete inputs). -/
def allowAllEnv : FsEnv :=
  ⟨fun _ => true, fun _ => true, fun _ => true, fun _ => some Json.null⟩

/-- A file system holding exactly one file `cfg` with content `x`. -/
def oneFileFs : String → Option String :=
  fun p => if p = "cfg" then some "x" else none

/-! ## config.rs -/

/-- `GatewayConfig` (`src/config.rs`); all fields default to unset as with
`#[derive(Default)]`.  `port` is `Option<u16>` in the source; the `as u16`
truncation is modelled by `% 65536`. -/
structure GatewayConfig where
  mode : Option String := none
  bind : Option String := none
  port : Option Int := none
  auth_mode : Option String := none
  token : Option String := none
  tailscale_funnel : Option Bool := none
  mdns_mode : Option String := none
  control_ui_origins : Option (List String) := none
  trusted_proxies : Option (List String) := none
  http_no_auth : Option Bool := none
deriving DecidableEq, Repr

/-- `ToolsConfig` (`src/config.rs`). -/
structure ToolsConfig where
  profile : Option String := none
  deny : Option (List String) := none
  exec_host : Option String := none
  exec_security : Option String := none
  exec_ask : Option String := none
  exec_safe_bins : Option (List String) := none
  elevated_enabled : Option Bool := none
  fs_workspace_only : Option Bool := none
  web_fetch_ssrf_policy : Option String := none
  web_search_ssrf_policy : Option String := none
deriving DecidableEq, Repr

/-- `SandboxConfig` (`src/config.rs`). -/
structure SandboxConfig where
  mode : Option String := none
  workspace_access : Option String := none
  scope : Option String := none
deriving DecidableEq, Repr

/-- `SessionConfig` (`src/config.rs`). -/
structure SessionConfig where
  dm_scope : Option String := none
deriving DecidableEq, Repr

/-- `ChannelConfig` (`src/config.rs`). -/
structure ChannelConfig where
  enabled : Option Bool := none
  dm_policy : Option String := none
  group_policy : Option String := none
  allow_from : Option (List String) := none
  groups : Option (List (String × Json)) := none

/-- `OpenClawConfig` (`src/config.rs`).  `channels : HashMap<String,
ChannelConfig>` is modelled as an association list in the deterministic
insertion order of the fixed channel-name loop (the `HashMap` iteration
order is unspecified in Rust; no claim depends on it). -/
structure OpenClawConfig where
  gateway : GatewayConfig := {}
  tools : ToolsConfig := {}
  sandbox : SandboxConfig := {}
  session : SessionConfig := {}
  channels : List (String × ChannelConfig) := []
  raw : Json := .null

/-- `arr.iter().filter_map(|v| v.as_str().map(String::from)).collect()`. -/
def strListOfArr (arr : List Json) : List String :=
  arr.filterMap Json.asStr

/-- The gateway section of `OpenClawConfig::from_dict`
(`src/config.rs` lines 102–150). -/
def parseGateway (data : Json) : GatewayConfig :=
  match (jsonGet data "gateway").bind Json.asObjO with
  | none => {}
  | some gw =>
    { mode := (jsonGet gw "mode").bind Json.asStr
      bind := (jsonGet gw "bind").bind Json.asStr
      port := ((jsonGet gw "port").bind Json.asU64).map (fun n => n % 65536)
      auth_mode := ((jsonGet gw "auth").bind (fun v => jsonGet v "mode")).bind Json.asStr
      token := ((jsonGet gw "auth").bind (fun v => jsonGet v "token")).bind Json.asStr
      tailscale_funnel :=
        ((jsonGet gw "tailscale").bind (fun v => jsonGet v "funnel")).bind Json.asBool
      mdns_mode :=
        (((jsonGet gw "discovery").bind (fun v => jsonGet v "mdns")).bind
          (fun v => jsonGet v "mode")).bind Json.asStr
      control_ui_origins :=
        (((jsonGet gw "controlUi").bind (fun v => jsonGet v "allowedOrigins")).bind
          Json.asArr).map strListOfArr
      trusted_proxies :=
        ((jsonGet gw "trustedProxies").bind Json.asArr).map strListOfArr
      http_no_auth :=
        ((jsonGet gw "http").bind (fun v => jsonGet v "noAuth")).bind Json.asBool }

/-- The tools section of `OpenClawConfig::from_dict`
(`src/config.rs` lines 152–204). -/
def parseTools (data : Json) : ToolsConfig :=
  match (jsonGet data "tools").bind Json.asObjO with
  | none => {}
  | some tl =>
    { profile := (jsonGet tl "profile").bind Json.asStr
      deny := ((jsonGet tl "deny").bind Json.asArr).map strListOfArr
      exec_host := ((jsonGet tl "exec").bind (fun v => jsonGet v "host")).bind Json.asStr
      exec_security :=
        ((jsonGet tl "exec").bind (fun v => jsonGet v "security")).bind Json.asStr
      exec_ask := ((jsonGet tl "exec").bind (fun v => jsonGet v "ask")).bind Json.asStr
      exec_safe_bins :=
        (((jsonGet tl "exec").bind (fun v => jsonGet v "safeBins")).bind
          Json.asArr).map strListOfArr
      elevated_enabled :=
        ((jsonGet tl "elevated").bind (fun v => jsonGet v "enabled")).bind Json.asBool
      fs_workspace_only :=
        ((jsonGet tl "fs").bind (fun v => jsonGet v "workspaceOnly")).bind Json.asBool
      web_fetch_ssrf_policy :=
        ((jsonGet tl "webFetch").bind (fun v => jsonGet v "ssrfPolicy")).bind Json.asStr
      web_search_ssrf_policy :=
        ((jsonGet tl "webSearch").bind (fun v => jsonGet v "ssrfPolicy")).bind Json.asStr }

/-- The sandbox section of `OpenClawConfig::from_dict`
(`src/config.rs` lines 206–220): `agents.defaults.sandbox`, each level
requiring an object. -/
def parseSandbox (data : Json) : SandboxConfig :=
  match (jsonGet data "agents").bind Json.asObjO with
  | none => {}
  | some agents =>
    match (jsonGet agents "defaults").bind Json.asObjO with
    | none => {}
    | some defaults =>
      match (jsonGet defaults "sandbox").bind Json.asObjO with
      | none => {}
      | some sb =>
        { mode := (jsonGet sb "mode").bind Json.asStr
          workspace_access := (jsonGet sb "workspaceAccess").bind Json.asStr
          scope := (jsonGet sb "scope").bind Json.asStr }

/-- The session section of `OpenClawConfig::from_dict`
(`src/config.rs` lines 222–230). -/
def parseSession (data : Json) : SessionConfig :=
  match (jsonGet data "session").bind Json.asObjO with
  | none => {}
  | some sess => { dm_scope := (jsonGet sess "dmScope").bind Json.asStr }

/-- The fixed channel-name set (`src/config.rs` lines 233–235). -/
def channelNames : List String :=
  ["telegram", "discord", "whatsapp", "slack", "imessage", "signal"]

/-- One channel entry of `OpenClawConfig::from_dict`
(`src/config.rs` lines 242–261). -/
def parseChannel (ch : Json) : ChannelConfig :=
  { enabled := (jsonGet ch "enabled").bind Json.asBool
    dm_policy := (jsonGet ch "dmPolicy").bind Json.asStr
    group_policy := (jsonGet ch "groupPolicy").bind Json.asStr
    allow_from := ((jsonGet ch "allowFrom").bind Json.asArr).map strListOfArr
    groups := (jsonGet ch "groups").bind Json.asObjFields }

/-- The channels loop of `OpenClawConfig::from_dict`
(`src/config.rs` lines 236–263). -/
def parseChannels (data : Json) : List (String × ChannelConfig) :=
  channelNames.foldl
    (fun acc name =>
      match ((jsonGet data "channels").bind (fun v => jsonGet v name)).bind Json.asObjO with
      | some ch => acc ++ [(name, parseChannel ch)]
      | none => acc)
    []

/-- `OpenClawConfig::from_dict` (`src/config.rs` lines 98–266): builds the
typed projection, retains the raw tree, and always ends in `Ok(config)` —
the function has no error return. -/
def OpenClawConfig.from_dict (data : Json) : Except String OpenClawConfig :=
  Except.ok
    { gateway := parseGateway data
      tools := parseTools data
      sandbox := parseSandbox data
      session := parseSession data
      channels := parseChannels data
      raw := data }

/-- Extract the configuration from `from_dict` (total, since `from_dict`
never fails). -/
def normalizeDoc (data : Json) : OpenClawConfig :=
  match OpenClawConfig.from_dict data with
  | .ok c => c
  | .error _ => {}

/-! ## String helpers for the scanners -/

/-- Does the second character list start with the first? -/
def startsWithChars : List Char → List Char → Bool
  | [], _ => true
  | _ :: _, [] => false
  | a :: as, b :: bs => if a = b then startsWithChars as bs else false

/-- Does the character list contain the needle as a contiguous sublist? -/
def containsChars (needle : List Char) : List Char → Bool
  | [] => startsWithChars needle []
  | b :: bs =>
    if startsWithChars needle (b :: bs) then true else containsChars needle bs

/-- Rust `str::contains` (substring search). -/
def strContainsSub (hay needle : String) : Bool :=
  containsChars needle.data hay.data

/-- Rust `str::starts_with`. -/
def strStartsWithSub (s pre : String) : Bool :=
  startsWithChars pre.data s.data

/-- Rust `str::to_lowercase`, faithful on the ASCII strings the scanners
compare. -/
def strToLower (s : String) : String :=
  String.mk (s.data.map Char.toLower)

/-- Rust `Vec::join(", ")`. -/
def joinComma : List String → String
  | [] => ""
  | [x] => x
  | x :: xs => x ++ ", " ++ joinComma xs

/-! ## scanner/gateway.rs -/

/-- `GatewayScanner::scan` (`src/scanner/gateway.rs` lines 31–164). -/
def GatewayScanner.scan (config : OpenClawConfig) : List Finding :=
  (if config.gateway.auth_mode = some "none" then
    [(Finding.new "gateway.auth_none" "gateway" .critical
      "Gateway Authentication Disabled"
      "Gateway auth mode is set to 'none', allowing unauthenticated access"
      "Anyone can access your gateway without authentication"
      "Set gateway.auth.mode to 'token' or 'password'"
      "gateway.auth.mode").with_cve "CVE-2026-26322"]
  else [])
  ++ (if config.gateway.bind = some "0.0.0.0" ∨ config.gateway.bind = some "0.0.0.0:0" then
    [Finding.new "gateway.bind_public" "gateway" .critical
      "Gateway Bound to All Interfaces"
      "Gateway is bound to 0.0.0.0, making it publicly accessible"
      "Anyone on the network can access your gateway"
      "Set gateway.bind to 'loopback' for local-only access"
      "gateway.bind"]
  else [])
  ++ (if config.gateway.bind = some "lan" ∧ config.gateway.token = none then
    [Finding.new "gateway.lan_no_auth" "gateway" .critical
      "LAN-Bound Gateway Without Authentication"
      "Gateway is accessible on LAN without authentication token"
      "Anyone on your local network can access the gateway"
      "Set gateway.auth.token to a strong token (32+ characters)"
      "gateway.bind"]
  else [])
  ++ (match config.gateway.token with
    | some token =>
      if token.length < 32 then
        [Finding.new "gateway.weak_token" "gateway" .high
          "Weak Gateway Token"
          ("Gateway token is only " ++ toString token.length
            ++ " characters (recommended: 32+)")
          "Token may be vulnerable to brute force attacks"
          "Use a token with at least 32 random characters"
          "gateway.auth.token"]
      else []
    | none => [])
  ++ (if config.gateway.tailscale_funnel = some true then
    [(Finding.new "gateway.tailscale_funnel" "gateway" .critical
      "Tailscale Funnel Enabled"
      "Gateway is exposed via Tailscale Funnel, making it publicly accessible"
      "Your gateway is exposed to the public internet via Tailscale"
      "Disable Tailscale Funnel unless you need public access"
      "gateway.tailscale.funnel").with_cve "CVE-2026-26322"]
  else [])
  ++ (if config.gateway.mdns_mode = some "full" then
    [Finding.new "gateway.mdns_full" "gateway" .medium
      "mDNS Full Mode Enabled"
      "mDNS is in full mode, exposing cliPath and sshPort"
      "Reveals filesystem path and SSH availability to local network"
      "Set discovery.mdns.mode to 'minimal' or 'off'"
      "discovery.mdns.mode"]
  else [])
  ++ (if config.gateway.bind ≠ some "loopback" ∧ config.gateway.control_ui_origins = none then
    [Finding.new "gateway.control_ui_no_origins" "gateway" .high
      "Control UI Missing allowedOrigins"
      "Non-loopback Control UI requires explicit allowedOrigins"
      "Control UI may be accessible to unauthorized origins"
      "Set gateway.controlUi.allowedOrigins to explicit origin list"
      "gateway.controlUi.allowedOrigins"]
  else [])
  ++ (if config.gateway.http_no_auth = some true then
    [Finding.new "gateway.http_no_auth" "gateway" .critical
      "Gateway HTTP APIs Without Auth"
      "Gateway HTTP APIs are reachable without authentication"
      "Unauthenticated access to gateway HTTP endpoints"
      "Set gateway.auth.mode to 'token' or 'password'"
      "gateway.http.noAuth"]
  else [])
  ++ (if config.gateway.bind = some "lan" ∧ config.gateway.trusted_proxies = none then
    [Finding.new "gateway.no_trusted_proxies" "gateway" .low
      "No Trusted Proxies Configured"
      "LAN-bound gateway without trusted proxies may have IP detection issues"
      "Client IP may not be correctly detected behind proxy"
      "Configure gateway.trustedProxies with proxy IPs"
      "gateway.trustedProxies"]
  else [])

/-! ## scanner/sandbox.rs -/

/-- The missing control-plane entries of a deny list, in the fixed check
order (`src/scanner/sandbox.rs` lines 79–94). -/
def SandboxScanner.missingDeny (deny_list : List String) : List String :=
  (if deny_list.contains "gateway" then [] else ["gateway"])
  ++ (if deny_list.contains "cron" then [] else ["cron"])
  ++ (if deny_list.contains "sessions_spawn" then [] else ["sessions_spawn"])
  ++ (if deny_list.contains "sessions_send" then [] else ["sessions_send"])

/-- The single High finding listing all missing deny entries
(`src/scanner/sandbox.rs` lines 96–107). -/
def SandboxScanner.denyFinding (missing : List String) : Finding :=
  Finding.new "sandbox.tools_deny_incomplete" "sandbox" .high
    ("tools.deny Missing: " ++ joinComma missing)
    ("Control plane tools not in deny list: " ++ joinComma missing)
    "Agents can make persistent config changes or spawn subagents"
    ("Add to tools.deny: " ++ joinComma missing)
    "tools.deny"

/-- `SandboxScanner::scan` (`src/scanner/sandbox.rs` lines 31–111).  Note
the deny-list check runs only under `if let Some(deny_list)`: an absent
deny list produces no finding here. -/
def SandboxScanner.scan (config : OpenClawConfig) : List Finding :=
  (if config.sandbox.mode = some "off" ∨ config.sandbox.mode = none then
    [Finding.new "sandbox.mode_off" "sandbox" .critical
      "Sandbox Mode Disabled"
      "Sandbox mode is disabled, tools run directly on host"
      "Tool execution can access and modify the host system"
      "Enable sandbox mode: agents.defaults.sandbox.mode: 'docker'"
      "agents.defaults.sandbox.mode"]
  else [])
  ++ (if config.sandbox.workspace_access = some "rw" then
    [Finding.new "sandbox.workspace_rw" "sandbox" .high
      "Sandbox Workspace Read-Write Access"
      "Sandbox has read-write access to agent workspace"
      "Agent can modify files in the workspace"
      "Set agents.defaults.sandbox.workspaceAccess to 'ro' or 'none'"
      "agents.defaults.sandbox.workspaceAccess"]
  else [])
  ++ (if config.sandbox.scope = some "shared" then
    [Finding.new "sandbox.scope_shared" "sandbox" .medium
      "Sandbox Scope Set to Shared"
      "All agents share the same sandbox workspace"
      "One agent can access another agent's files"
      "Set agents.defaults.sandbox.scope to 'agent' or 'session'"
      "agents.defaults.sandbox.scope"]
  else [])
  ++ (match config.tools.deny with
    | some deny_list =>
      if SandboxScanner.missingDeny deny_list = [] then []
      else [SandboxScanner.denyFinding (SandboxScanner.missingDeny deny_list)]
    | none => [])

/-! ## scanner/tools.rs -/

/-- The dangerous-binaries list (`src/scanner/tools.rs` line 133). -/
def ToolsScanner.dangerousBins : List String :=
  ["/bin/sh", "/bin/bash", "/usr/bin/env"]

/-- The per-match safeBins finding (`src/scanner/tools.rs` lines 136–145):
the id and config path are fixed; the binary path appears only in the
title, description and remediation. -/
def ToolsScanner.safeBinFinding (bin_path : String) : Finding :=
  Finding.new "tools.safe_bins_dangerous" "tools" .high
    ("Dangerous bin in safeBins: " ++ bin_path)
    (bin_path ++ " in safeBins allows shell execution")
    "Can execute arbitrary shell commands"
    ("Remove " ++ bin_path ++ " from safeBins")
    "tools.exec.safeBins"

/-- `ToolsScanner::scan` (`src/scanner/tools.rs` lines 29–152). -/
def ToolsScanner.scan (config : OpenClawConfig) : List Finding :=
  (if config.sandbox.mode = some "off"
      ∧ (config.tools.exec_host = some "gateway" ∨ config.tools.exec_host = none) then
    [Finding.new "tools.exec_no_sandbox" "tools" .critical
      "Exec Tool Without Sandbox"
      "exec tool enabled with sandbox disabled - runs on host"
      "Command execution can modify host system"
      "Enable sandbox or restrict exec allowlist"
      "agents.defaults.sandbox.mode + tools.exec.host"]
  else [])
  ++ (if config.tools.elevated_enabled = some true then
    [Finding.new "tools.elevated_enabled" "tools" .critical
      "Elevated Mode Enabled"
      "tools.elevated.enabled is true - allows host sudo"
      "Agents can execute commands with elevated privileges"
      "Disable tools.elevated.enabled unless required"
      "tools.elevated.enabled"]
  else [])
  ++ (if config.tools.fs_workspace_only = some false then
    [Finding.new "tools.fs_workspace_only_disabled" "tools" .high
      "File System Workspace Only Disabled"
      "tools.fs.workspaceOnly is false - can access any file"
      "Agents can read/write files outside workspace"
      "Set tools.fs.workspaceOnly: true"
      "tools.fs.workspaceOnly"]
  else [])
  ++ (if config.tools.exec_security = some "deny" then
    [Finding.new "tools.exec_security_deny" "tools" .low
      "Exec Security Set to Deny"
      "tools.exec.security is 'deny' - blocks exec entirely"
      "May prevent legitimate exec usage"
      "Consider 'ask' or 'allowlist' for controlled exec"
      "tools.exec.security"]
  else [])
  ++ (if config.tools.web_fetch_ssrf_policy ≠ some "strict" then
    [(Finding.new "tools.web_fetch_no_ssrf" "tools" .medium
      "Web Fetch SSRF Protection Not Strict"
      ("web_fetch ssrfPolicy is '"
        ++ config.tools.web_fetch_ssrf_policy.getD "default" ++ "'")
      "May allow access to internal network resources"
      "Set tools.webFetch.ssrfPolicy: 'strict'"
      "tools.webFetch.ssrfPolicy").with_cve "CVE-2026-26322"]
  else [])
  ++ (if config.tools.web_search_ssrf_policy ≠ some "strict" then
    [(Finding.new "tools.web_search_no_ssrf" "tools" .medium
      "Web Search SSRF Protection Not Strict"
      ("web_search ssrfPolicy is '"
        ++ config.tools.web_search_ssrf_policy.getD "default" ++ "'")
      "May allow access to internal network resources"
      "Set tools.webSearch.ssrfPolicy: 'strict'"
      "tools.webSearch.ssrfPolicy").with_cve "CVE-2026-26322"]
  else [])
  ++ (match config.tools.exec_safe_bins with
    | some safe_bins =>
      (ToolsScanner.dangerousBins.filter (fun b => safe_bins.contains b)).map
        ToolsScanner.safeBinFinding
    | none => [])

/-! ## scanner/session.rs -/

/-- `SessionScanner::scan` (`src/scanner/session.rs` lines 27–68). -/
def SessionScanner.scan (config : OpenClawConfig) : List Finding :=
  (if config.session.dm_scope = some "main"
      ∧ 1 < (config.channels.filter (fun p => p.2.enabled = some true)).length then
    [Finding.new "session.dm_scope_main_multi_channel" "session" .medium
      "DM Scope 'main' With Multiple Channels"
      "All DMs route to main session across multiple channels"
      "Messages from different channels/users mix in same context"
      "Set session.dmScope to 'per-channel-peer'"
      "session.dmScope"]
  else [])
  ++ (if config.session.dm_scope = none then
    [Finding.new "session.dm_scope_default" "session" .info
      "DM Scope Not Explicitly Set"
      "session.dmScope defaults to 'main'"
      "May expose messages to wrong context"
      "Set session.dmScope explicitly to 'per-channel-peer'"
      "session.dmScope"]
  else [])

/-! ## scanner/channels.rs -/

/-- The findings of one channel entry (`src/scanner/channels.rs`
lines 29–91, loop body).  Disabled channels are skipped (`continue`). -/
def ChannelScanner.channelFindings (channel_name : String) (channel : ChannelConfig) :
    List Finding :=
  if channel.enabled ≠ some true then []
  else
    (if channel.dm_policy = some "open" then
      [Finding.new ("channel." ++ channel_name ++ ".dm_policy_open") "channels" .critical
        (channel_name ++ " DM Policy 'open'")
        ("Anyone can DM the bot on " ++ channel_name)
        "Untrusted users can send messages to the agent"
        ("Set channels." ++ channel_name ++ ".dmPolicy to 'pairing' or 'allowlist'")
        ("channels." ++ channel_name ++ ".dmPolicy")]
    else [])
    ++ (if channel.dm_policy = some "disabled" then
      [Finding.new ("channel." ++ channel_name ++ ".dm_disabled") "channels" .info
        (channel_name ++ " DMs Disabled")
        ("DMs are disabled for " ++ channel_name)
        "Cannot receive direct messages on this channel"
        "Enable if DMs are needed"
        ("channels." ++ channel_name ++ ".dmPolicy")]
    else [])
    ++ (if channel.group_policy = some "open" then
      [Finding.new ("channel." ++ channel_name ++ ".group_policy_open") "channels" .high
        (channel_name ++ " Group Policy 'open'")
        ("Anyone in group can trigger the bot on " ++ channel_name)
        "Any group member can interact with agent"
        ("Set channels." ++ channel_name ++ ".groupPolicy to 'allowlist'")
        ("channels." ++ channel_name ++ ".groupPolicy")]
    else [])
    ++ (match channel.allow_from with
      | some allow_from =>
        if allow_from.contains "*" then
          [Finding.new ("channel." ++ channel_name ++ ".allow_from_wildcard")
            "channels" .medium
            (channel_name ++ " allowFrom Uses Wildcard")
            "allowFrom includes '*' - allows everyone"
            "Any user on the channel can interact with agent"
            "Use specific user IDs instead of '*'"
            ("channels." ++ channel_name ++ ".allowFrom")]
        else []
      | none => [])

/-- `ChannelScanner::scan` (`src/scanner/channels.rs` lines 26–94). -/
def ChannelScanner.scan (config : OpenClawConfig) : List Finding :=
  (config.channels.map (fun p => ChannelScanner.channelFindings p.1 p.2)).flatten

/-! ## scanner/credentials.rs -/

/-- The secret-pattern list (`src/scanner/credentials.rs` line 66). -/
def CredentialsScanner.apiKeyPatterns : List String :=
  ["sk-", "api_", "apikey", "secret", "token"]

/-- `CredentialsScanner::scan` (`src/scanner/credentials.rs` lines 27–85).
The pattern loop reports only the first matching pattern (`break`). -/
def CredentialsScanner.scan (config : OpenClawConfig) : List Finding :=
  (match config.gateway.token with
    | some token =>
      if (strStartsWithSub token "REDACTED" || strStartsWithSub token "***"
          || token = "YOUR_TOKEN_HERE" || token.length < 10) = false
          ∧ token.length < 32 then
        [Finding.new "credentials.weak_gateway_token" "credentials" .high
          "Weak Gateway Token in Config"
          "Gateway token is present and appears weak or unredacted"
          "Token could be exposed in config file"
          "Use a strong token (32+ chars) or ensure config is properly secured"
          "gateway.auth.token"]
      else if (strStartsWithSub token "REDACTED" || strStartsWithSub token "***"
          || token = "YOUR_TOKEN_HERE" || token.length < 10) = false then
        [Finding.new "credentials.token_in_config" "credentials" .medium
          "Gateway Token in Configuration File"
          "Gateway token is stored directly in config file"
          "Config file should be protected with appropriate permissions"
          "Ensure config file has restricted permissions (600)"
          "gateway.auth.token"]
      else []
    | none => [])
  ++ (match CredentialsScanner.apiKeyPatterns.find?
        (fun p => strContainsSub (strToLower (jsonToString config.raw)) p) with
    | some pattern =>
      [Finding.new "credentials.potential_secret_found" "credentials" .high
        "Potential Secret Detected in Config"
        ("Found potential secret pattern '" ++ pattern ++ "' in configuration")
        "Sensitive credentials may be exposed"
        "Review and ensure secrets are properly secured or redacted"
        "config"]
    | none => [])

/-! ## scanner/nodes.rs -/

/-- The sensitive capability set (`src/scanner/nodes.rs` line 62). -/
def NodeScanner.sensitiveCaps : List String :=
  ["camera", "screen", "contacts", "sms", "location"]

/-- The findings of one node entry (`src/scanner/nodes.rs` lines 34–88,
loop body). -/
def NodeScanner.nodeFindings (node_name : String) (node_config : Json) : List Finding :=
  match node_config.asObjFields with
  | none => []
  | some _ =>
    (match jsonGet node_config "allowCommands" with
      | some allow_commands =>
        match allow_commands.asArr with
        | some commands =>
          if commands.any (fun c =>
              match c.asStr with
              | some s => s = "*" || s = "all"
              | none => false) then
            [Finding.new ("nodes." ++ node_name ++ ".unrestricted_commands")
              "nodes" .critical
              ("Node '" ++ node_name ++ "' Has Unrestricted Commands")
              ("Node '" ++ node_name ++ "' allows all commands (*)")
              "Any command can be executed on the node"
              "Restrict allowCommands to specific needed commands"
              ("nodes." ++ node_name ++ ".allowCommands")]
          else []
        | none => []
      | none => [])
    ++ (match (jsonGet node_config "capabilities").bind Json.asArr with
      | some caps =>
        if (caps.filterMap Json.asStr).filter
            (fun s => NodeScanner.sensitiveCaps.contains s) = [] then []
        else
          [Finding.new ("nodes." ++ node_name ++ ".sensitive_capabilities")
            "nodes" .medium
            ("Node '" ++ node_name ++ "' Has Sensitive Capabilities")
            ("Node '" ++ node_name ++ "' has access to: "
              ++ joinComma ((caps.filterMap Json.asStr).filter
                (fun s => NodeScanner.sensitiveCaps.contains s)))
            "Node can access sensitive device features"
            "Review if these capabilities are necessary"
            ("nodes." ++ node_name ++ ".capabilities")]
      | none => [])

/-- `NodeScanner::scan` (`src/scanner/nodes.rs` lines 28–110). -/
def NodeScanner.scan (config : OpenClawConfig) : List Finding :=
  (match (jsonGet config.raw "nodes").bind Json.asObjFields with
    | some nodes => (nodes.map (fun p => NodeScanner.nodeFindings p.1 p.2)).flatten
    | none => [])
  ++ (match (jsonGet config.raw "tools").bind Json.asObjO with
    | some tools =>
      match (jsonGet tools "exec").bind Json.asObjO with
      | some exec_config =>
        match jsonGet exec_config "allowNodeExec" with
        | some (.bool true) =>
          [Finding.new "nodes.exec_allowed" "nodes" .high
            "Node Execution Enabled"
            "Tools are allowed to execute commands on paired nodes"
            "Commands can be run on remote nodes"
            "Disable allowNodeExec unless strictly needed"
            "tools.exec.allowNodeExec"]
        | _ => []
      | none => []
    | none => [])

/-! ## scanner/browser.rs -/

/-- `BrowserScanner::scan` (`src/scanner/browser.rs` lines 27–107). -/
def BrowserScanner.scan (config : OpenClawConfig) : List Finding :=
  match (jsonGet config.raw "tools").bind Json.asObjO with
  | none => []
  | some tools =>
    match (jsonGet tools "browser").bind Json.asObjO with
    | none => []
    | some browser =>
      (match (jsonGet browser "relay").bind Json.asObjO with
        | some relay =>
          match (jsonGet relay "bind").bind Json.asStr with
          | some bind =>
            if bind ≠ "loopback" ∧ bind ≠ "127.0.0.1" then
              [Finding.new "browser.relay_public" "browser" .critical
                "Browser Relay Bound to Non-Localhost"
                ("Browser relay bind is '" ++ bind ++ "' (not loopback)")
                "Browser automation could be accessed from network"
                "Set browser.relay.bind to 'loopback'"
                "tools.browser.relay.bind"]
            else []
          | none => []
        | none => [])
      ++ (match (jsonGet browser "cdp").bind Json.asObjO with
        | some cdp =>
          match jsonGet cdp "enabled" with
          | some (.bool true) =>
            match (jsonGet cdp "bind").bind Json.asStr with
            | some bind =>
              if bind ≠ "loopback" ∧ bind ≠ "127.0.0.1" then
                [Finding.new "browser.cdp_public" "browser" .critical
                  "Chrome DevTools Protocol Enabled and Exposed"
                  "CDP is enabled and may be accessible from network"
                  "Remote attackers could control browser"
                  "Set browser.cdp.bind to 'loopback' or disable CDP"
                  "tools.browser.cdp"]
              else []
            | none => []
          | _ => []
        | none => [])
      ++ (match (jsonGet browser "downloadDir").bind Json.asStr with
        | some download_dir =>
          if download_dir = "" ∨ download_dir = "/" ∨ download_dir = "C:\\" then
            [Finding.new "browser.download_root" "browser" .high
              "Browser Download Directory is Root"
              ("Download directory is '" ++ download_dir ++ "'")
              "Downloaded files could overwrite system files"
              "Set a specific downloads folder"
              "tools.browser.downloadDir"]
          else []
        | none => [])
      ++ (match (jsonGet browser "profile").bind Json.asStr with
        | some profile =>
          if (strContainsSub profile "Default" || strContainsSub profile "default") = true then
            [Finding.new "browser.default_profile" "browser" .medium
              "Using Default Browser Profile"
              "Browser uses the default user profile"
              "Could access bookmarks, passwords, cookies"
              "Use a dedicated profile for automation"
              "tools.browser.profile"]
          else []
        | none => [])

/-! ## scanner/control_plane.rs -/

/-- The control-plane tool table (`src/scanner/control_plane.rs`
lines 35–40). -/
def ControlPlaneScanner.controlTools : List (String × String) :=
  [("gateway", "Gateway tool - can modify config, run updates"),
   ("cron", "Cron tool - can schedule jobs"),
   ("sessions_spawn", "Sessions spawn - can create subagents"),
   ("sessions_send", "Sessions send - can send cross-session messages")]

/-- `ControlPlaneScanner::scan` (`src/scanner/control_plane.rs`
lines 28–74): an absent deny list counts as empty here (`unwrap_or`),
yielding one High finding per control tool. -/
def ControlPlaneScanner.scan (config : OpenClawConfig) : List Finding :=
  (ControlPlaneScanner.controlTools.filterMap (fun p =>
    if (config.tools.deny.getD []).contains p.1 then none
    else some (Finding.new ("control_plane." ++ p.1 ++ "_not_denied")
      "control_plane" .high
      ("Tool '" ++ p.1 ++ "' Not in Deny List")
      p.2
      "Agent can use this powerful tool"
      ("Add '" ++ p.1 ++ "' to tools.deny")
      "tools.deny")))
  ++ (match config.tools.profile with
    | some profile =>
      if profile = "admin" ∨ profile = "full" ∨ profile = "*" then
        [Finding.new "control_plane.unrestricted_profile" "control_plane" .critical
          "Unrestricted Tool Profile"
          ("Tools profile is '" ++ profile ++ "' - allows all tools")
          "No tool restrictions in place"
          "Use a restricted profile or explicitly deny dangerous tools"
          "tools.profile"]
      else []
    | none => [])

/-! ## scanner/memory.rs -/

/-- `MemoryScanner::scan` (`src/scanner/memory.rs` lines 26–98). -/
def MemoryScanner.scan (config : OpenClawConfig) : List Finding :=
  match (jsonGet config.raw "memory").bind Json.asObjO with
  | none => []
  | some memory =>
    (match (jsonGet memory "backend").bind Json.asStr with
      | some backend =>
        if backend = "qmd" then
          [Finding.new "memory.qmd_backend" "memory" .medium
            "QMD Memory Backend"
            "Using QMD (Query-Metadata-Description) memory backend"
            "May have different isolation characteristics than SQLite"
            "Review QMD security properties"
            "memory.backend"]
        else []
      | none => [])
    ++ (match (jsonGet memory "transcriptRetention").bind Json.asStr with
      | some transcript =>
        if transcript = "forever" ∨ transcript = "infinite" then
          [Finding.new "memory.transcript_forever" "memory" .medium
            "Unlimited Transcript Retention"
            ("Transcript retention is '" ++ transcript ++ "'")
            "Conversation history stored indefinitely"
            "Set to finite period (e.g., '30d')"
            "memory.transcriptRetention"]
        else []
      | none => [])
    ++ (match (jsonGet memory "embeddingModel").bind Json.asStr with
      | some embedding =>
        if (strStartsWithSub embedding "local:" || strStartsWithSub embedding "ollama:")
            = false then
          [Finding.new "memory.external_embedding" "memory" .low
            "External Embedding Model"
            ("Using external embedding: " ++ embedding)
            "Memory data sent to external API"
            "Consider local embeddings for sensitive data"
            "memory.embeddingModel"]
        else []
      | none => [])
    ++ (match (jsonGet memory "searchProvider").bind Json.asStr with
      | some search =>
        if search ≠ "local" ∧ search ≠ "fuse" then
          [Finding.new "memory.external_search" "memory" .low
            "External Memory Search"
            ("Using external search: " ++ search)
            "Memory queries sent to external service"
            "Consider local search for privacy"
            "memory.searchProvider"]
        else []
      | none => [])

/-! ## scanner/prompt_injection.rs -/

/-- `PromptInjectionScanner::scan` (`src/scanner/prompt_injection.rs`
lines 29–102): three chain checks plus one unconditional Info finding. -/
def PromptInjectionScanner.scan (config : OpenClawConfig) : List Finding :=
  (if config.sandbox.mode = some "off"
      ∧ (config.tools.web_fetch_ssrf_policy ≠ none
        ∨ config.tools.web_search_ssrf_policy ≠ none) then
    [Finding.new "injection.sandbox_off_plus_web" "prompt_injection" .medium
      "Sandbox Disabled with Web Tools"
      "Sandbox is off and web tools are enabled"
      "Prompt injection could lead to SSRF via web content"
      "Enable sandbox or disable web tools"
      "agents.defaults.sandbox.mode + tools.webFetch"]
  else [])
  ++ (if config.sandbox.workspace_access ≠ some "none"
      ∧ config.tools.exec_host ≠ none then
    [Finding.new "injection.workspace_plus_exec" "prompt_injection" .medium
      "Workspace Access with Exec Enabled"
      "Sandbox has workspace access and exec is enabled"
      "Injected content could be executed"
      "Restrict workspace access or disable exec"
      "agents.defaults.sandbox.workspaceAccess + tools.exec.host"]
  else [])
  ++ (if (config.tools.deny.getD []).contains "sessions_spawn" = false
      ∧ (jsonGet config.raw "memory").isSome = true then
    [Finding.new "injection.sessions_spawn_plus_memory" "prompt_injection" .medium
      "Session Spawn + Memory Access"
      "Can spawn new sessions and has memory access"
      "Could inject persistent instructions into memory"
      "Deny sessions_spawn tool or restrict memory access"
      "tools.deny + memory"]
  else [])
  ++ [Finding.new "injection.info" "prompt_injection" .info
    "Prompt Injection Detection Informational"
    "This scanner detects configuration paths that could amplify injection impact, not injection itself"
    "Prompt injection alone is expected behavior - we only flag chains to bypass"
    "See docs for hardening guidance"
    "N/A"]

/-! ## scanner/plugins.rs -/

/-- The findings of one installed plugin entry (`src/scanner/plugins.rs`
lines 36–67, loop body).  The ids are fixed; the source URL appears only in
the description. -/
def PluginScanner.pluginFindings (plugin : Json) : List Finding :=
  match plugin.asObjFields with
  | none => []
  | some _ =>
    (if (jsonGet plugin "version").isNone = true then
      [Finding.new "plugins.unpinned_version" "plugins" .high
        "Plugin Version Not Pinned"
        "A plugin does not have a pinned version"
        "Plugin could auto-update to vulnerable version"
        "Pin plugin versions to specific versions"
        "plugins.installed[].version"]
    else [])
    ++ (match (jsonGet plugin "source").bind Json.asStr with
      | some source =>
        if strContainsSub source "github.com" = true
            ∧ strContainsSub source "openclaw" = false then
          [Finding.new "plugins.untrusted_source" "plugins" .medium
            "Plugin From Untrusted Source"
            ("Plugin from: " ++ source)
            "Plugin code may not be vetted"
            "Use verified plugins from ClawHub or trusted sources"
            "plugins.installed[].source"]
        else []
      | none => [])

/-- The findings of one installed skill entry (`src/scanner/plugins.rs`
lines 91–125, loop body). -/
def PluginScanner.skillFindings (skill : Json) : List Finding :=
  match skill.asObjFields with
  | none => []
  | some _ =>
    (match (jsonGet skill "url").bind Json.asStr with
      | some url =>
        if strContainsSub url ".." = true ∨ strContainsSub url "%2e%2e" = true then
          [(Finding.new "skills.path_traversal" "plugins" .critical
            "Skill Path Traversal Detected"
            ("Skill URL contains path traversal: " ++ url)
            "Could install skill from arbitrary path"
            "Use verified skill URLs from ClawHub"
            "skills.installed[].url").with_cve "CVE-2026-XXXXX"]
        else []
      | none => [])
    ++ (match (jsonGet skill "source").bind Json.asStr with
      | some source =>
        if source ≠ "clawhub" ∧ strStartsWithSub source "https://" = false then
          [Finding.new "skills.untrusted_source" "plugins" .high
            "Skill From Untrusted Source"
            ("Skill source: " ++ source)
            "Skill code may be malicious"
            "Use skills from verified ClawHub registry"
            "skills.installed[].source"]
        else []
      | none => [])

/-- `PluginScanner::scan` (`src/scanner/plugins.rs` lines 28–150). -/
def PluginScanner.scan (config : OpenClawConfig) : List Finding :=
  (match (jsonGet config.raw "plugins").bind Json.asObjO with
    | some plugins =>
      (match (jsonGet plugins "installed").bind Json.asArr with
        | some installed => (installed.map PluginScanner.pluginFindings).flatten
        | none => [])
      ++ (match jsonGet plugins "allowUnverified" with
        | some (.bool true) =>
          [Finding.new "plugins.allow_unverified" "plugins" .critical
            "Unverified Plugins Allowed"
            "Configuration allows installing unverified plugins"
            "Malicious plugins could be installed"
            "Set plugins.allowUnverified to false"
            "plugins.allowUnverified"]
        | _ => [])
    | none => [])
  ++ (match (jsonGet config.raw "skills").bind Json.asObjO with
    | some skills =>
      match (jsonGet skills "installed").bind Json.asArr with
      | some installed => (installed.map PluginScanner.skillFindings).flatten
      | none => []
    | none => [])
  ++ (match (jsonGet config.raw "extensions").bind Json.asObjO with
    | some extensions =>
      match (jsonGet extensions "enabled").bind Json.asArr with
      | some enabled =>
        if 5 < enabled.length then
          [Finding.new "extensions.too_many" "plugins" .low
            "Many Extensions Enabled"
            (toString enabled.length ++ " extensions are enabled")
            "Larger attack surface"
            "Review and disable unused extensions"
            "extensions.enabled"]
        else []
      | none => []
    | none => [])

/-! ## main.rs scan pipeline -/

/-- The `--severity` filter (`src/main.rs` lines 68–73). -/
inductive SeverityFilter where
  | criticalOnly
  | highOnly
  | all
deriving DecidableEq, Repr

/-- The per-finding filter applied by `run_scan` (`src/main.rs`
lines 95–109). -/
def keepFinding (severity : SeverityFilter) (finding : Finding) : Bool :=
  match severity with
  | .criticalOnly => finding.severity = .critical
  | .highOnly => finding.severity = .critical || finding.severity = .high
  | .all => true

/-- The fixed scanner registry in registration order
(`src/scanner/mod.rs` lines 35–50), applied to one configuration. -/
def scannerFindings (config : OpenClawConfig) : List (List Finding) :=
  [GatewayScanner.scan config, SandboxScanner.scan config, ToolsScanner.scan config,
   SessionScanner.scan config, ChannelScanner.scan config, CredentialsScanner.scan config,
   NodeScanner.scan config, BrowserScanner.scan config, ControlPlaneScanner.scan config,
   MemoryScanner.scan config, PromptInjectionScanner.scan config, PluginScanner.scan config]

/-- `run_scan` (`src/main.rs` lines 83–114) on an already-decoded document:
normalize, run every scanner in registration order, filter each finding by
the severity filter and append it to the result. -/
def run_scan (data : Json) (severity : SeverityFilter) : Except String ScanResult :=
  match OpenClawConfig.from_dict data with
  | .error e => .error e
  | .ok openclaw_config =>
    .ok ((scannerFindings openclaw_config).foldl
      (fun result findings => findings.foldl
        (fun result finding =>
          if keepFinding severity finding then result.add_finding finding else result)
        result)
      ScanResult.new)

/-- The scan result of a run (total accessor: `run_scan` only fails on
load/parse, which the decoded-document model has already passed). -/
def scanOutcome (data : Json) (severity : SeverityFilter) : ScanResult :=
  match run_scan data severity with
  | .ok r => r
  | .error _ => ⟨[], -1⟩

/-- Scenario document `{"gateway":{"bind":"loopback","auth":{"mode":"none"}}}`
(keys in decoded `BTreeMap` order). -/
def authNoneDoc : Json :=
  Json.obj [("gateway", Json.obj [("auth", Json.obj [("mode", Json.str "none")]),
    ("bind", Json.str "loopback")])]

/-- A document with two dangerous safeBins entries and two unpinned
installed plugins. -/
def dupIdDoc : Json :=
  Json.obj [("plugins", Json.obj [("installed", Json.arr [Json.obj [], Json.obj []])]),
    ("tools", Json.obj [("exec", Json.obj [("safeBins",
      Json.arr [Json.str "/bin/sh", Json.str "/bin/bash"])])])]

/-- A document with one enabled channel whose DM policy is open. -/
def channelOpenDoc : Json :=
  Json.obj [("channels", Json.obj [("telegram",
    Json.obj [("dmPolicy", Json.str "open"), ("enabled", Json.bool true)])])]

/-- A placeholder finding (default for list indexing in witnesses). -/
def dummyFinding : Finding :=
  Finding.new "" "" .info "" "" "" "" ""

/-! ### Root-level edit operations

`apply_fix_to_value` only ever touches the root object: each fix flattens
into a sequence of conditional pads (insert an empty object when the segment
key is absent) followed by one key set.  These primitive operations drive the
idempotence proof for `apply_fixes`. -/

/-- A primitive root-object operation performed by `apply_fix_to_value`. -/
inductive FixOp where
  | pad (k : String)
  | setv (k : String) (v : Json)

/-- The operation sequence of one fix: a conditional pad per non-final path
segment, then the key set. -/
def opsOfFix (f : ConfigFix) : List FixOp :=
  (splitDot f.path).dropLast.map .pad ++ [.setv f.key f.value]

/-- The operation sequence of a fix list. -/
def opsOfFixes (fs : List ConfigFix) : List FixOp :=
  (fs.map opsOfFix).flatten

/-- Run one primitive operation on a root field list. -/
def runOp (l : List (String × Json)) : FixOp → List (String × Json)
  | .pad k => if (objLookup l k).isSome then l else objInsert l k (.obj [])
  | .setv k v => objInsert l k v

/-- Run a sequence of primitive operations. -/
def runOps (l : List (String × Json)) (ops : List FixOp) : List (String × Json) :=
  ops.foldl runOp l

/-- The effect of one primitive operation on the value stored at key `k`. -/
def opEffect (o : FixOp) (k : String) (x : Option Json) : Option Json :=
  match o with
  | .pad k' =>
    if k' = k then (match x with | none => some (.obj []) | some y => some y) else x
  | .setv k' v => if k' = k then some v else x

/-- The per-key effect of a sequence of operations. -/
def opsEffect (ops : List FixOp) (k : String) (x : Option Json) : Option Json :=
  ops.foldl (fun x o => opEffect o k x) x

/-- The field list of an object is strictly sorted by key (the `BTreeMap`
invariant of every decoded `serde_json` object). -/
def keySorted (l : List (String × Json)) : Prop :=
  List.Pairwise (fun p q => strLt p.1 q.1 = true) l

/-- The root of the value is either a non-object or a sorted object. -/
def rootSorted : Json → Prop
  | .obj l => keySorted l
  | _ => True

/-! ## File-system lemmas -/

theorem append_bak_ne (s : String) : s ++ ".bak" ≠ s := by
  intro h
  have hlen := congrArg String.length h
  rw [String.length_append] at hlen
  have : (".bak" : String).length = 4 := rfl
  omega

theorem fsUpdate_same (fs : String → Option String) (p c : String) :
    fsUpdate fs p c p = some c := by
  simp [fsUpdate]

theorem fsUpdate_other (fs : String → Option String) (p c q : String)
    (h : q ≠ p) : fsUpdate fs p c q = fs q := by
  simp [fsUpdate, h]

/-! ## Finding-list lemmas -/

theorem filter_ite_singleton (c : Prop) [Decidable c] (f : Finding)
    (p : Finding → Bool) (h : p f = false) :
    (if c then [f] else []).filter p = [] := by
  split
  · simp [List.filter, h]
  · rfl

theorem filter_singleton_self (f : Finding) (p : Finding → Bool)
    (h : p f = true) : [f].filter p = [f] := by
  simp [List.filter, h]

theorem filter_map_safeBin (xs : List String) :
    ((xs.map ToolsScanner.safeBinFinding).filter
        (fun f => f.id = "tools.safe_bins_dangerous"))
      = xs.map ToolsScanner.safeBinFinding := by
  induction xs with
  | nil => rfl
  | cons x t ih => simp [List.filter, ih, ToolsScanner.safeBinFinding, Finding.new]

/-! ## String-order lemmas -/

theorem charsLt_irrefl : ∀ as, charsLt as as = false
  | [] => rfl
  | a :: as => by
    simp [charsLt, Nat.lt_irrefl, charsLt_irrefl as]

theorem charsLt_trans :
    ∀ as bs cs, charsLt as bs = true → charsLt bs cs = true → charsLt as cs = true
  | [], bs, cs, h1, h2 => by
    cases bs with
    | nil => simp [charsLt] at h1
    | cons b bs =>
      cases cs with
      | nil => simp [charsLt] at h2
      | cons c cs => simp [charsLt]
  | _ :: _, [], _, h1, _ => by simp [charsLt] at h1
  | a :: as, b :: bs, cs, h1, h2 => by
    cases cs with
    | nil => simp [charsLt] at h2
    | cons c cs =>
      simp only [charsLt] at h1 h2 ⊢
      rcases Nat.lt_trichotomy a.val.toNat b.val.toNat with hab | hab | hab
      · rcases Nat.lt_trichotomy b.val.toNat c.val.toNat with hbc | hbc | hbc
        · rw [if_pos (by omega)]
        · rw [if_pos (by omega)]
        · rw [if_neg (by omega), if_pos hbc] at h2
          exact absurd h2 (by simp)
      · rw [if_neg (by omega), if_neg (by omega)] at h1
        rcases Nat.lt_trichotomy b.val.toNat c.val.toNat with hbc | hbc | hbc
        · rw [if_pos (by omega)]
        · rw [if_neg (by omega), if_neg (by omega)] at h2
          rw [if_neg (by omega), if_neg (by omega)]
          exact charsLt_trans as bs cs h1 h2
        · rw [if_neg (by omega), if_pos hbc] at h2
          exact absurd h2 (by simp)
      · rw [if_neg (by omega), if_pos hab] at h1
        exact absurd h1 (by simp)

theorem charsLt_connected :
    ∀ as bs, as ≠ bs → charsLt as bs = true ∨ charsLt bs as = true
  | [], [], h => absurd rfl h
  | [], _ :: _, _ => Or.inl (by simp [charsLt])
  | _ :: _, [], _ => Or.inr (by simp [charsLt])
  | a :: as, b :: bs, h => by
    by_cases hab : a = b
    · subst hab
      have hne : as ≠ bs := fun hh => h (by rw [hh])
      rcases charsLt_connected as bs hne with h' | h'
      · exact Or.inl (by simp [charsLt, Nat.lt_irrefl, h'])
      · exact Or.inr (by simp [charsLt, Nat.lt_irrefl, h'])
    · have hv : a.val.toNat ≠ b.val.toNat := fun hv => hab (Char.ext (UInt32.ext hv))
      rcases Nat.lt_or_ge a.val.toNat b.val.toNat with h' | h'
      · exact Or.inl (by simp [charsLt, h'])
      · have h'' : b.val.toNat < a.val.toNat := by omega
        exact Or.inr (by simp [charsLt, h''])

theorem strLt_irrefl (a : String) : strLt a a = false :=
  charsLt_irrefl a.data

theorem strLt_trans {a b c : String} (h1 : strLt a b = true) (h2 : strLt b c = true) :
    strLt a c = true :=
  charsLt_trans a.data b.data c.data h1 h2

theorem strLt_connected {a b : String} (h : a ≠ b) :
    strLt a b = true ∨ strLt b a = true :=
  charsLt_connected a.data b.data
    (fun hd => h (by cases a; cases b; exact congrArg String.mk (by simpa using hd)))

theorem strLt_asymm {a b : String} (h1 : strLt a b = true) (h2 : strLt b a = true) :
    False := by
  have := strLt_trans h1 h2
  rw [strLt_irrefl a] at this
  exact absurd this (by simp)

theorem strLt_ne {a b : String} (h : strLt a b = true) : a ≠ b := by
  intro hh
  subst hh
  rw [strLt_irrefl a] at h
  exact absurd h (by simp)

/-! ## Sorted association-list lemmas -/

theorem keySorted_nil : keySorted [] := List.Pairwise.nil

theorem keySorted_cons (p : String × Json) (t : List (String × Json)) :
    keySorted (p :: t) ↔ (∀ q ∈ t, strLt p.1 q.1 = true) ∧ keySorted t :=
  List.pairwise_cons

theorem objLookup_eq_none (l : List (String × Json)) (k : String)
    (h : ∀ p ∈ l, p.1 ≠ k) : objLookup l k = none := by
  induction l with
  | nil => rfl
  | cons p t ih =>
    obtain ⟨k', v'⟩ := p
    have hk : k ≠ k' := fun hh => h (k', v') (by simp) (by simp [hh])
    simp only [objLookup, if_neg hk]
    exact ih (fun q hq => h q (by simp [hq]))

theorem mem_objInsert (l : List (String × Json)) (k : String) (v : Json) :
    ∀ p ∈ objInsert l k v, p = (k, v) ∨ p ∈ l := by
  induction l with
  | nil => simp [objInsert]
  | cons q t ih =>
    obtain ⟨k', v'⟩ := q
    intro p hp
    simp only [objInsert] at hp
    by_cases he : k = k'
    · rw [if_pos he] at hp
      rcases List.mem_cons.mp hp with h' | h'
      · exact Or.inl h'
      · exact Or.inr (List.mem_cons_of_mem _ h')
    · rw [if_neg he] at hp
      by_cases hl : strLt k k' = true
      · rw [if_pos hl] at hp
        rcases List.mem_cons.mp hp with h' | h'
        · exact Or.inl h'
        · exact Or.inr h'
      · rw [if_neg hl] at hp
        rcases List.mem_cons.mp hp with h' | h'
        · exact Or.inr (by simp [h'])
        · rcases ih p h' with h'' | h''
          · exact Or.inl h''
          · exact Or.inr (List.mem_cons_of_mem _ h'')

theorem objInsert_sorted (l : List (String × Json)) (k : String) (v : Json)
    (h : keySorted l) : keySorted (objInsert l k v) := by
  induction l with
  | nil =>
    simp only [objInsert]
    rw [keySorted_cons]
    exact ⟨by simp, keySorted_nil⟩
  | cons q t ih =>
    obtain ⟨k', v'⟩ := q
    rw [keySorted_cons] at h
    obtain ⟨hhead, htail⟩ := h
    simp only [objInsert]
    by_cases he : k = k'
    · subst he
      rw [if_pos rfl, keySorted_cons]
      exact ⟨hhead, htail⟩
    · rw [if_neg he]
      by_cases hl : strLt k k' = true
      · rw [if_pos hl, keySorted_cons]
        refine ⟨?_, ?_⟩
        · intro p hp
          rcases List.mem_cons.mp hp with h' | h'
          · rw [h']
            exact hl
          · exact strLt_trans hl (hhead p h')
        · rw [keySorted_cons]
          exact ⟨hhead, htail⟩
      · rw [if_neg hl, keySorted_cons]
        have hk'k : strLt k' k = true := by
          rcases strLt_connected he with h' | h'
          · exact absurd h' hl
          · exact h'
        refine ⟨?_, ih htail⟩
        intro p hp
        rcases mem_objInsert t k v p hp with h' | h'
        · rw [h']
          exact hk'k
        · exact hhead p h'

theorem objLookup_objInsert_self (l : List (String × Json)) (k : String) (v : Json) :
    objLookup (objInsert l k v) k = some v := by
  induction l with
  | nil => simp [objInsert, objLookup]
  | cons q t ih =>
    obtain ⟨k', v'⟩ := q
    simp only [objInsert]
    by_cases he : k = k'
    · rw [if_pos he]
      simp [objLookup]
    · rw [if_neg he]
      by_cases hl : strLt k k' = true
      · rw [if_pos hl]
        simp [objLookup]
      · rw [if_neg hl]
        simp only [objLookup, if_neg he]
        exact ih

theorem objLookup_objInsert_other (l : List (String × Json)) (k : String) (v : Json)
    (q : String) (h : q ≠ k) : objLookup (objInsert l k v) q = objLookup l q := by
  induction l with
  | nil => simp [objInsert, objLookup, if_neg h]
  | cons p t ih =>
    obtain ⟨k', v'⟩ := p
    simp only [objInsert]
    by_cases he : k = k'
    · subst he
      rw [if_pos rfl]
      simp [objLookup, if_neg h]
    · rw [if_neg he]
      by_cases hl : strLt k k' = true
      · rw [if_pos hl]
        simp only [objLookup, if_neg h]
      · rw [if_neg hl]
        by_cases hq : q = k'
        · simp [objLookup, if_pos hq]
        · simp only [objLookup, if_neg hq]
          exact ih

theorem objLookup_none_of_lt_head (k' : String) (v' : Json)
    (t : List (String × Json)) (k : String)
    (hs : keySorted ((k', v') :: t)) (hlt : strLt k k' = true) :
    objLookup ((k', v') :: t) k = none := by
  rw [keySorted_cons] at hs
  apply objLookup_eq_none
  intro p hp
  rcases List.mem_cons.mp hp with h' | h'
  · rw [h']
    exact fun hh => strLt_ne hlt hh.symm
  · have := strLt_trans hlt (hs.1 p h')
    exact fun hh => strLt_ne this hh.symm

theorem objExt : ∀ (l m : List (String × Json)), keySorted l → keySorted m →
    (∀ k, objLookup l k = objLookup m k) → l = m
  | [], [], _, _, _ => rfl
  | [], (k, v) :: m, _, _, hext => by
    have := hext k
    simp [objLookup] at this
  | (k, v) :: l, [], _, _, hext => by
    have := hext k
    simp [objLookup] at this
  | (k1, v1) :: l, (k2, v2) :: m, hsl, hsm, hext => by
    have hk : k1 = k2 := by
      by_contra hne
      rcases strLt_connected hne with h' | h'
      · have h1 := hext k1
        rw [objLookup_none_of_lt_head k2 v2 m k1 hsm h'] at h1
        simp [objLookup] at h1
      · have h2 := hext k2
        rw [objLookup_none_of_lt_head k1 v1 l k2 hsl h'] at h2
        simp [objLookup] at h2
    subst hk
    have hv : v1 = v2 := by
      have := hext k1
      simpa [objLookup] using this
    subst hv
    rw [keySorted_cons] at hsl hsm
    have htails : ∀ k, objLookup l k = objLookup m k := by
      intro k
      by_cases hk : k = k1
      · subst hk
        rw [objLookup_eq_none l k (fun p hp => fun hh => strLt_ne (hsl.1 p hp) (by rw [hh])),
          objLookup_eq_none m k (fun p hp => fun hh => strLt_ne (hsm.1 p hp) (by rw [hh]))]
      · have := hext k
        simpa [objLookup, if_neg hk] using this
    rw [objExt l m hsl.2 hsm.2 htails]

/-! ## Root-edit operation lemmas -/

theorem runOp_sorted (l : List (String × Json)) (o : FixOp) (h : keySorted l) :
    keySorted (runOp l o) := by
  cases o with
  | pad k =>
    simp only [runOp]
    split
    · exact h
    · exact objInsert_sorted l k (.obj []) h
  | setv k v => exact objInsert_sorted l k v h

theorem runOps_sorted (ops : List FixOp) (l : List (String × Json))
    (h : keySorted l) : keySorted (runOps l ops) := by
  induction ops generalizing l with
  | nil => exact h
  | cons o t ih => exact ih (runOp l o) (runOp_sorted l o h)

theorem objLookup_runOp (l : List (String × Json)) (o : FixOp) (k : String) :
    objLookup (runOp l o) k = opEffect o k (objLookup l k) := by
  cases o with
  | pad k' =>
    simp only [runOp, opEffect]
    by_cases he : k' = k
    · subst he
      rw [if_pos rfl]
      cases hl : objLookup l k' with
      | none =>
        simp only [Option.isSome_none, Bool.false_eq_true, if_false]
        exact objLookup_objInsert_self l k' (.obj [])
      | some y =>
        simp only [Option.isSome_some, if_true]
        exact hl
    · rw [if_neg he]
      cases hl : objLookup l k' with
      | none =>
        simp only [Option.isSome_none, Bool.false_eq_true, if_false]
        exact objLookup_objInsert_other l k' (.obj []) k (fun hh => he hh.symm)
      | some y =>
        simp only [Option.isSome_some, if_true]
  | setv k' v =>
    simp only [runOp, opEffect]
    by_cases he : k' = k
    · subst he
      rw [if_pos rfl]
      exact objLookup_objInsert_self l k' v
    · rw [if_neg he]
      exact objLookup_objInsert_other l k' v k (fun hh => he hh.symm)

theorem objLookup_runOps (ops : List FixOp) (l : List (String × Json)) (k : String) :
    objLookup (runOps l ops) k = opsEffect ops k (objLookup l k) := by
  induction ops generalizing l with
  | nil => rfl
  | cons o t ih =>
    show objLookup (runOps (runOp l o) t) k = _
    rw [ih (runOp l o), objLookup_runOp]
    rfl

theorem opEffect_isSome (o : FixOp) (k : String) (x : Option Json)
    (h : x.isSome = true) : (opEffect o k x).isSome = true := by
  cases o with
  | pad k' =>
    simp only [opEffect]
    split
    · cases x with
      | none => simp at h
      | some y => simp
    · exact h
  | setv k' v =>
    simp only [opEffect]
    split
    · simp
    · exact h

theorem opsEffect_isSome (ops : List FixOp) (k : String) (x : Option Json)
    (h : x.isSome = true) : (opsEffect ops k x).isSome = true := by
  induction ops generalizing x with
  | nil => exact h
  | cons o t ih =>
    show (opsEffect t k (opEffect o k x)).isSome = true
    exact ih (opEffect o k x) (opEffect_isSome o k x h)

theorem opEffect_of_isSome (o : FixOp) (k : String) (x : Option Json) :
    opEffect o k x = match o with
      | .pad k' => if k' = k then (match x with | none => some (.obj []) | some y => some y) else x
      | .setv k' v => if k' = k then some v else x := rfl

theorem opsEffect_stable (ops : List FixOp) (k : String) :
    ∀ x, opsEffect ops k (opsEffect ops k x) = opsEffect ops k x := by
  induction ops with
  | nil => intro x; rfl
  | cons o t ih =>
    intro x
    show opsEffect t k (opEffect o k (opsEffect t k (opEffect o k x)))
      = opsEffect t k (opEffect o k x)
    cases o with
    | pad k' =>
      by_cases he : k' = k
      · subst he
        have hsome : (opEffect (.pad k') k' x).isSome = true := by
          simp [opEffect]
          cases x <;> simp
        obtain ⟨y, hy⟩ :=
          Option.isSome_iff_exists.mp
            (opsEffect_isSome t k' (opEffect (.pad k') k' x) hsome)
        have hih := ih (opEffect (.pad k') k' x)
        rw [hy] at hih
        rw [hy]
        have hred : opEffect (.pad k') k' (some y) = some y := by simp [opEffect]
        rw [hred]
        exact hih
      · have heq : ∀ z, opEffect (.pad k') k z = z := by
          intro z
          simp only [opEffect, if_neg he]
        simp only [heq]
        exact ih x
    | setv k' v =>
      by_cases he : k' = k
      · subst he
        have heq : ∀ z, opEffect (.setv k' v) k' z = some v := by
          intro z
          simp [opEffect]
        simp only [heq]
      · have heq : ∀ z, opEffect (.setv k' v) k z = z := by
          intro z
          simp only [opEffect, if_neg he]
        simp only [heq]
        exact ih x

/-- Replaying the same operation sequence on its own output is the
identity. -/
theorem runOps_idem (ops : List FixOp) (l : List (String × Json))
    (h : keySorted l) : runOps (runOps l ops) ops = runOps l ops := by
  apply objExt
  · exact runOps_sorted ops (runOps l ops) (runOps_sorted ops l h)
  · exact runOps_sorted ops l h
  · intro k
    rw [objLookup_runOps, objLookup_runOps]
    exact opsEffect_stable ops k (objLookup l k)

/-! ## Bridging apply_fix_to_value to the operation semantics -/

theorem padFold_obj (parts : List String) (l : List (String × Json)) :
    parts.foldl
        (fun c part => if (jsonGet c part).isSome then c else jsonInsert c part (.obj []))
        (Json.obj l)
      = Json.obj (parts.foldl (fun l p => runOp l (.pad p)) l) := by
  induction parts generalizing l with
  | nil => rfl
  | cons p t ih =>
    simp only [List.foldl_cons]
    have hstep : (if (jsonGet (Json.obj l) p).isSome then Json.obj l
        else jsonInsert (Json.obj l) p (.obj []))
        = Json.obj (runOp l (.pad p)) := by
      simp only [jsonGet, jsonInsert, runOp]
      split
      · rfl
      · rfl
    rw [hstep, ih]

theorem apply_fix_obj (l : List (String × Json)) (f : ConfigFix) :
    apply_fix_to_value (Json.obj l) f.path f.key f.value
      = Json.obj (runOps l (opsOfFix f)) := by
  unfold apply_fix_to_value opsOfFix runOps
  rw [padFold_obj, List.foldl_append, List.foldl_map]
  rfl

theorem padFold_nonobj (parts : List String) (j : Json) (h : j.asObjFields = none) :
    parts.foldl
        (fun c part => if (jsonGet c part).isSome then c else jsonInsert c part (.obj []))
        j = j := by
  induction parts with
  | nil => rfl
  | cons p t ih =>
    simp only [List.foldl_cons]
    have hget : jsonGet j p = none := by
      cases j <;> simp_all [jsonGet, Json.asObjFields]
    have hins : jsonInsert j p (.obj []) = j := by
      cases j <;> simp_all [jsonInsert, Json.asObjFields]
    rw [hget]
    simp only [Option.isSome_none, Bool.false_eq_true, if_false]
    rw [hins]
    exact ih

theorem apply_fix_nonobj (j : Json) (f : ConfigFix) (h : j.asObjFields = none) :
    apply_fix_to_value j f.path f.key f.value = j := by
  unfold apply_fix_to_value
  rw [padFold_nonobj _ j h]
  cases j <;> simp_all [jsonInsert, Json.asObjFields]

theorem applyFixesValue_obj (fs : List ConfigFix) (l : List (String × Json)) :
    applyFixesValue fs (Json.obj l) = Json.obj (runOps l (opsOfFixes fs)) := by
  induction fs generalizing l with
  | nil => rfl
  | cons f t ih =>
    show applyFixesValue t (apply_fix_to_value (Json.obj l) f.path f.key f.value)
      = _
    rw [apply_fix_obj, ih]
    unfold opsOfFixes runOps
    rw [List.map_cons, List.flatten_cons, List.foldl_append]

theorem applyFixesValue_nonobj (fs : List ConfigFix) (j : Json)
    (h : j.asObjFields = none) : applyFixesValue fs j = j := by
  induction fs with
  | nil => rfl
  | cons f t ih =>
    show applyFixesValue t (apply_fix_to_value j f.path f.key f.value) = j
    rw [apply_fix_nonobj j f h]
    exact ih

/-- The value transformation of `apply_fixes` is idempotent on any document
whose root is a `serde_json`-decoded object (sorted keys) or a
non-object. -/
theorem applyFixesValue_idem (fs : List ConfigFix) (v : Json)
    (h : rootSorted v) : applyFixesValue fs (applyFixesValue fs v) = applyFixesValue fs v := by
  cases v with
  | obj l =>
    rw [applyFixesValue_obj, applyFixesValue_obj]
    rw [runOps_idem _ _ h]
  | null => rw [applyFixesValue_nonobj fs .null rfl, applyFixesValue_nonobj fs .null rfl]
  | bool b => rw [applyFixesValue_nonobj fs (.bool b) rfl, applyFixesValue_nonobj fs (.bool b) rfl]
  | num n => rw [applyFixesValue_nonobj fs (.num n) rfl, applyFixesValue_nonobj fs (.num n) rfl]
  | str s => rw [applyFixesValue_nonobj fs (.str s) rfl, applyFixesValue_nonobj fs (.str s) rfl]
  | arr xs => rw [applyFixesValue_nonobj fs (.arr xs) rfl, applyFixesValue_nonobj fs (.arr xs) rfl]

/-! ## Scoring lemmas -/

theorem Severity.score_nonpos (s : Severity) : s.score ≤ 0 := by
  cases s <;> simp [Severity.score]

theorem weightSum_nil : weightSum [] = 0 := rfl

theorem weightSum_cons (f : Finding) (t : List Finding) :
    weightSum (f :: t) = f.severity.score + weightSum t := by
  simp [weightSum]

theorem weightSum_nonpos (l : List Finding) : weightSum l ≤ 0 := by
  induction l with
  | nil => simp [weightSum]
  | cons f t ih =>
    rw [weightSum_cons]
    have := Severity.score_nonpos f.severity
    omega

theorem clampScore_bounds (x : Int) : 0 ≤ clampScore x ∧ clampScore x ≤ 100 := by
  unfold clampScore
  split
  · omega
  · split <;> omega

theorem clampScore_absorb (a w s : Int) (ha : a ≤ 100) (hw : w ≤ 0) (hs : s ≤ 0) :
    clampScore (clampScore (a + w) + s) = clampScore (a + w + s) := by
  unfold clampScore
  split <;> split <;> omega

/-- Incremental append-then-clamp scoring, started from any in-range score,
equals sum-then-clamp. -/
theorem foldl_add_finding_score (l : List Finding) (r : ScanResult)
    (h0 : 0 ≤ r.health_score) (h100 : r.health_score ≤ 100) :
    (l.foldl ScanResult.add_finding r).health_score
      = clampScore (r.health_score + weightSum l) := by
  induction l generalizing r with
  | nil =>
    simp only [List.foldl_nil, weightSum_nil]
    unfold clampScore
    split <;> [omega; (split <;> omega)]
  | cons f t ih =>
    have hw := Severity.score_nonpos f.severity
    have hs := weightSum_nonpos t
    have hb := clampScore_bounds (r.health_score + f.severity.score)
    simp only [List.foldl_cons]
    rw [ih (ScanResult.add_finding r f) hb.1 hb.2]
    show clampScore (clampScore (r.health_score + f.severity.score) + weightSum t) = _
    rw [clampScore_absorb _ _ _ h100 hw hs, weightSum_cons]
    ring_nf

/-! ## Claim theorems -/

/-- C1: appending any sequence of findings to a fresh `ScanResult` via
`add_finding` yields a health score equal to
`clamp(100 + Σ severity weights, 0, 100)`, the weights being fixed at
Critical −25, High −15, Medium −10, Low −5, Info −2; in particular the
score always lies in [0,100]. -/
theorem c1_add_finding_score_clamp (l : List Finding) :
    (l.foldl ScanResult.add_finding ScanResult.new).health_score
        = clampScore (100 + weightSum l)
      ∧ 0 ≤ (l.foldl ScanResult.add_finding ScanResult.new).health_score
      ∧ (l.foldl ScanResult.add_finding ScanResult.new).health_score ≤ 100
      ∧ Severity.score .critical = -25 ∧ Severity.score .high = -15
      ∧ Severity.score .medium = -10 ∧ Severity.score .low = -5
      ∧ Severity.score .info = -2 := by
  have h := foldl_add_finding_score l ScanResult.new (by simp [ScanResult.new])
    (by simp [ScanResult.new])
  have hb := clampScore_bounds (100 + weightSum l)
  refine ⟨by simpa [ScanResult.new] using h, ?_, ?_, rfl, rfl, rfl, rfl, rfl⟩
  · rw [h]; simpa [ScanResult.new] using hb.1
  · rw [h]; simpa [ScanResult.new] using hb.2

/-- C5: incremental append-then-clamp scoring applied to any permutation of
a finding list equals the single-pass sum-then-clamp formula on the original
list (so every permutation yields the same final health score). -/
theorem c5_incremental_eq_single_pass_perm (l l' : List Finding)
    (h : l.Perm l') :
    (l'.foldl ScanResult.add_finding ScanResult.new).health_score
      = clampScore (100 + weightSum l) := by
  have hsum : weightSum l' = weightSum l :=
    List.Perm.sum_eq (List.Perm.map (fun f => f.severity.score) h.symm)
  have h' := foldl_add_finding_score l' ScanResult.new (by simp [ScanResult.new])
    (by simp [ScanResult.new])
  rw [h', hsum]
  rfl

/-- C2 (code bug): `apply_fix_to_value` never descends the dotted path.
Applying the fix generated for `sandbox.mode_off`
(path `agents.defaults.sandbox`, key `mode`, value `"docker"`) to the empty
document inserts the empty objects `agents` and `defaults` and the key
`mode` at the ROOT, and the value at `agents.defaults.sandbox.mode` stays
absent instead of becoming `"docker"`. -/
theorem c2_apply_fix_never_descends :
    generate_fixes [Finding.new "sandbox.mode_off" "sandbox" .critical
        "t" "d" "i" "r" "agents.defaults.sandbox.mode"]
        = [⟨"agents.defaults.sandbox", "mode", .str "docker", "Enable sandbox mode"⟩]
      ∧ applyFixesValue
          [⟨"agents.defaults.sandbox", "mode", .str "docker", "Enable sandbox mode"⟩]
          (Json.obj [])
        = Json.obj [("agents", .obj []), ("defaults", .obj []), ("mode", .str "docker")]
      ∧ jsonGetPath
          (applyFixesValue
            [⟨"agents.defaults.sandbox", "mode", .str "docker", "Enable sandbox mode"⟩]
            (Json.obj []))
          ["agents", "defaults", "sandbox", "mode"] = none := by
  refine ⟨rfl, rfl, rfl⟩

/-- C3: for every non-dry-run `apply_fixes` call, (i) on any failure the
call returns an error, the original path keeps its pre-call content and no
write to the original path appears in the write trace, and (ii) on success
the write trace is exactly the backup write of the ORIGINAL content to
`<path>.bak` followed by the overwrite of the original path, so the backup
always precedes the overwrite. -/
theorem c3_backup_before_write (env : FsEnv) (fs : String → Option String)
    (path : String) (fixes : List ConfigFix) :
    (∀ e, (apply_fixes env fs path fixes false).res = .error e →
        (apply_fixes env fs path fixes false).fs path = fs path
        ∧ ∀ w ∈ (apply_fixes env fs path fixes false).writes, w.1 ≠ path)
    ∧ (∀ m, (apply_fixes env fs path fixes false).res = .ok m →
        ∃ orig out, fs path = some orig
          ∧ (apply_fixes env fs path fixes false).writes
              = [(path ++ ".bak", orig), (path, out)]
          ∧ (apply_fixes env fs path fixes false).fs (path ++ ".bak") = some orig
          ∧ (apply_fixes env fs path fixes false).fs path = some out) := by
  have hbak := append_bak_ne path
  unfold apply_fixes
  cases hfs : fs path with
  | none =>
    exact ⟨fun e _ => ⟨hfs, by simp⟩, fun m hm => by simp at hm⟩
  | some content =>
    cases hr : env.readable path with
    | false =>
      simp only [hr, ↓reduceIte]
      exact ⟨fun e _ => ⟨hfs, by simp⟩, fun m hm => by simp at hm⟩
    | true =>
      simp only [hr, Bool.true_eq_false, ↓reduceIte]
      cases hd : env.decode content with
      | none =>
        exact ⟨fun e _ => ⟨hfs, by simp⟩, fun m hm => by simp at hm⟩
      | some config =>
        simp only [Bool.false_eq_true, ↓reduceIte]
        cases hwb : env.writable (path ++ ".bak") with
        | false =>
          simp only [hwb, ↓reduceIte]
          exact ⟨fun e _ => ⟨hfs, by simp⟩, fun m hm => by simp at hm⟩
        | true =>
          simp only [hwb, Bool.true_eq_false, ↓reduceIte]
          cases hs : env.serializable (applyFixesValue fixes config) with
          | false =>
            simp only [hs, ↓reduceIte]
            refine ⟨fun e _ => ⟨?_, ?_⟩, fun m hm => by simp at hm⟩
            · show fsUpdate fs (path ++ ".bak") content path = some content
              rw [fsUpdate_other fs (path ++ ".bak") content path (Ne.symm hbak)]
              exact hfs
            · intro w hw
              simp only [List.mem_singleton] at hw
              subst hw
              exact fun h => hbak (by simpa using h)
          | true =>
            simp only [hs, Bool.true_eq_false, ↓reduceIte]
            cases hwp : env.writable path with
            | false =>
              simp only [hwp, ↓reduceIte]
              refine ⟨fun e _ => ⟨?_, ?_⟩, fun m hm => by simp at hm⟩
              · show fsUpdate fs (path ++ ".bak") content path = some content
                rw [fsUpdate_other fs (path ++ ".bak") content path (Ne.symm hbak)]
                exact hfs
              · intro w hw
                simp only [List.mem_singleton] at hw
                subst hw
                exact fun h => hbak (by simpa using h)
            | true =>
              simp only [hwp, Bool.true_eq_false, ↓reduceIte]
              refine ⟨fun e he => by simp at he, fun m _ => ?_⟩
              refine ⟨content, jsonSerializePretty (applyFixesValue fixes config),
                rfl, rfl, ?_, ?_⟩
              · show fsUpdate (fsUpdate fs (path ++ ".bak") content) path
                  (jsonSerializePretty (applyFixesValue fixes config)) (path ++ ".bak")
                    = some content
                rw [fsUpdate_other _ path _ (path ++ ".bak") hbak, fsUpdate_same]
              · show fsUpdate (fsUpdate fs (path ++ ".bak") content) path
                  (jsonSerializePretty (applyFixesValue fixes config)) path
                    = some (jsonSerializePretty (applyFixesValue fixes config))
                rw [fsUpdate_same]

/-- Witness for C3: the success branch at a concrete one-file file system
with a fully permissive environment, and the failure branch at a missing
file. -/
theorem c3_backup_before_write_witness :
    (∃ orig out, oneFileFs "cfg" = some orig
      ∧ (apply_fixes allowAllEnv oneFileFs "cfg" [] false).writes
          = [("cfg" ++ ".bak", orig), ("cfg", out)]
      ∧ (apply_fixes allowAllEnv oneFileFs "cfg" [] false).fs ("cfg" ++ ".bak")
          = some orig
      ∧ (apply_fixes allowAllEnv oneFileFs "cfg" [] false).fs "cfg" = some out)
    ∧ ((apply_fixes allowAllEnv (fun _ => none) "missing" [] false).fs "missing"
          = (fun _ => (none : Option String)) "missing"
        ∧ ∀ w ∈ (apply_fixes allowAllEnv (fun _ => none) "missing" [] false).writes,
            w.1 ≠ "missing") :=
  ⟨(c3_backup_before_write allowAllEnv oneFileFs "cfg" []).2
      "Applied fixes. Backup saved to: cfg.bak" rfl,
    (c3_backup_before_write allowAllEnv (fun _ => none) "missing" []).1
      "Config file not found: missing" rfl⟩

/-- C4: applying `apply_fixes` twice in a row with the same fix list
produces byte-identical file content both times.  The call is modelled
against any decoder that round-trips the serializer on the two documents the
calls actually parse (standing in for `serde_json::from_str`, whose
round-trip of `to_string_pretty` output is an external-library guarantee),
and any document whose root is a decoded object (sorted keys, the `BTreeMap`
invariant) or a non-object. -/
theorem c4_apply_fixes_idempotent
    (env : FsEnv) (fs : String → Option String) (path : String)
    (fixes : List ConfigFix) (c : String) (v0 : Json)
    (hc : fs path = some c)
    (hr : env.readable path = true)
    (hd : env.decode c = some v0)
    (hs0 : rootSorted v0)
    (hwb : env.writable (path ++ ".bak") = true)
    (hwp : env.writable path = true)
    (hser : env.serializable (applyFixesValue fixes v0) = true)
    (hrt : env.decode (jsonSerializePretty (applyFixesValue fixes v0))
        = some (applyFixesValue fixes v0)) :
    (∃ m, (apply_fixes env fs path fixes false).res = .ok m)
    ∧ (∃ m, (apply_fixes env (apply_fixes env fs path fixes false).fs
        path fixes false).res = .ok m)
    ∧ (apply_fixes env (apply_fixes env fs path fixes false).fs
        path fixes false).fs path
      = (apply_fixes env fs path fixes false).fs path
    ∧ (apply_fixes env fs path fixes false).fs path
      = some (jsonSerializePretty (applyFixesValue fixes v0)) := by
  have hidem : applyFixesValue fixes (applyFixesValue fixes v0)
      = applyFixesValue fixes v0 := applyFixesValue_idem fixes v0 hs0
  have h1 : apply_fixes env fs path fixes false
      = ⟨.ok ("Applied fixes. Backup saved to: " ++ (path ++ ".bak")),
          fsUpdate (fsUpdate fs (path ++ ".bak") c) path
            (jsonSerializePretty (applyFixesValue fixes v0)),
          [(path ++ ".bak", c),
            (path, jsonSerializePretty (applyFixesValue fixes v0))]⟩ := by
    unfold apply_fixes
    simp only [hc, hr, hd, hwb, hwp, hser, Bool.true_eq_false, Bool.false_eq_true,
      ↓reduceIte]
  have hfs1 : (apply_fixes env fs path fixes false).fs path
      = some (jsonSerializePretty (applyFixesValue fixes v0)) := by
    rw [h1]
    exact fsUpdate_same _ _ _
  have h2 : apply_fixes env (apply_fixes env fs path fixes false).fs
      path fixes false
      = ⟨.ok ("Applied fixes. Backup saved to: " ++ (path ++ ".bak")),
          fsUpdate
            (fsUpdate (apply_fixes env fs path fixes false).fs (path ++ ".bak")
              (jsonSerializePretty (applyFixesValue fixes v0)))
            path (jsonSerializePretty (applyFixesValue fixes v0)),
          [(path ++ ".bak", jsonSerializePretty (applyFixesValue fixes v0)),
            (path, jsonSerializePretty (applyFixesValue fixes v0))]⟩ := by
    rw [h1]
    unfold apply_fixes
    simp only [fsUpdate_same, hr, hrt, hidem, hwb, hwp, hser, Bool.true_eq_false,
      Bool.false_eq_true, ↓reduceIte]
  refine ⟨⟨_, by rw [h1]⟩, ⟨_, by rw [h2]⟩, ?_, hfs1⟩
  rw [h2, hfs1]
  show fsUpdate _ path (jsonSerializePretty (applyFixesValue fixes v0)) path = _
  exact fsUpdate_same _ _ _

/-- Witness for C4: the empty JSON document with the `sandbox.mode_off` fix,
a permissive environment and the round-trip decoder. -/
theorem c4_apply_fixes_idempotent_witness :
    (∃ m, (apply_fixes
        (roundtripEnv
          [⟨"agents.defaults.sandbox", "mode", .str "docker", "Enable sandbox mode"⟩]
          (Json.obj []))
        emptyDocFs "cfg"
        [⟨"agents.defaults.sandbox", "mode", .str "docker", "Enable sandbox mode"⟩]
        false).res = .ok m)
    ∧ (∃ m, (apply_fixes
        (roundtripEnv
          [⟨"agents.defaults.sandbox", "mode", .str "docker", "Enable sandbox mode"⟩]
          (Json.obj []))
        (apply_fixes
          (roundtripEnv
            [⟨"agents.defaults.sandbox", "mode", .str "docker", "Enable sandbox mode"⟩]
            (Json.obj []))
          emptyDocFs "cfg"
          [⟨"agents.defaults.sandbox", "mode", .str "docker", "Enable sandbox mode"⟩]
          false).fs "cfg"
        [⟨"agents.defaults.sandbox", "mode", .str "docker", "Enable sandbox mode"⟩]
        false).res = .ok m)
    ∧ (apply_fixes
        (roundtripEnv
          [⟨"agents.defaults.sandbox", "mode", .str "docker", "Enable sandbox mode"⟩]
          (Json.obj []))
        (apply_fixes
          (roundtripEnv
            [⟨"agents.defaults.sandbox", "mode", .str "docker", "Enable sandbox mode"⟩]
            (Json.obj []))
          emptyDocFs "cfg"
          [⟨"agents.defaults.sandbox", "mode", .str "docker", "Enable sandbox mode"⟩]
          false).fs "cfg"
        [⟨"agents.defaults.sandbox", "mode", .str "docker", "Enable sandbox mode"⟩]
        false).fs "cfg"
      = (apply_fixes
          (roundtripEnv
            [⟨"agents.defaults.sandbox", "mode", .str "docker", "Enable sandbox mode"⟩]
            (Json.obj []))
          emptyDocFs "cfg"
          [⟨"agents.defaults.sandbox", "mode", .str "docker", "Enable sandbox mode"⟩]
          false).fs "cfg"
    ∧ (apply_fixes
        (roundtripEnv
          [⟨"agents.defaults.sandbox", "mode", .str "docker", "Enable sandbox mode"⟩]
          (Json.obj []))
        emptyDocFs "cfg"
        [⟨"agents.defaults.sandbox", "mode", .str "docker", "Enable sandbox mode"⟩]
        false).fs "cfg"
      = some (jsonSerializePretty (applyFixesValue
          [⟨"agents.defaults.sandbox", "mode", .str "docker", "Enable sandbox mode"⟩]
          (Json.obj []))) :=
  c4_apply_fixes_idempotent
    (roundtripEnv
      [⟨"agents.defaults.sandbox", "mode", .str "docker", "Enable sandbox mode"⟩]
      (Json.obj []))
    emptyDocFs "cfg"
    [⟨"agents.defaults.sandbox", "mode", .str "docker", "Enable sandbox mode"⟩]
    (jsonSerializePretty (Json.obj [])) (Json.obj [])
    rfl rfl rfl List.Pairwise.nil rfl rfl rfl (by rfl)

/-- C9 counterexample: scanning
`{"gateway":{"bind":"loopback","auth":{"mode":"none"}}}` with the All filter
does NOT produce exactly one Critical finding and a health score of 75: the
full scan has two Critical findings (`gateway.auth_none` and
`sandbox.mode_off`, since the sandbox section is unset) plus eight more, and
the health score is 0. -/
theorem c9_auth_none_scan_counterexample :
    (run_scan authNoneDoc SeverityFilter.all).isOk = true
    ∧ (scanOutcome authNoneDoc SeverityFilter.all).health_score = 0
    ∧ ¬ (scanOutcome authNoneDoc SeverityFilter.all).health_score = 75
    ∧ (scanOutcome authNoneDoc SeverityFilter.all).critical_count = 2 := by
  refine ⟨rfl, by decide, by decide, by decide⟩

/-- C9 amended: scanning
`{"gateway":{"bind":"loopback","auth":{"mode":"none"}}}` with the All filter
produces exactly one finding from the gateway module — `gateway.auth_none`,
Critical, with CVE reference CVE-2026-26322 — while the full scan reports
the ten findings below (the empty sandbox/tools/session sections trigger
their own rules), with Critical findings `gateway.auth_none` and
`sandbox.mode_off` and a health score of 0. -/
theorem c9_auth_none_scan_amended :
    ((scanOutcome authNoneDoc SeverityFilter.all).findings.filter
        (fun f => f.module = "gateway")).map (fun f => (f.id, f.severity, f.cve))
      = [("gateway.auth_none", Severity.critical, some "CVE-2026-26322")]
    ∧ (scanOutcome authNoneDoc SeverityFilter.all).findings.map (fun f => f.id)
      = ["gateway.auth_none", "sandbox.mode_off", "tools.web_fetch_no_ssrf",
         "tools.web_search_no_ssrf", "session.dm_scope_default",
         "control_plane.gateway_not_denied", "control_plane.cron_not_denied",
         "control_plane.sessions_spawn_not_denied",
         "control_plane.sessions_send_not_denied", "injection.info"]
    ∧ ((scanOutcome authNoneDoc SeverityFilter.all).findings.filter
        (fun f => f.severity = Severity.critical)).map (fun f => f.id)
      = ["gateway.auth_none", "sandbox.mode_off"]
    ∧ (scanOutcome authNoneDoc SeverityFilter.all).health_score = 0 := by
  refine ⟨by decide, by decide, by decide, by decide⟩

/-- C10: scanning the empty document with the All filter yields a non-empty
finding list — `gateway.control_ui_no_origins` (High), `sandbox.mode_off`
(Critical), `tools.web_fetch_no_ssrf` and `tools.web_search_no_ssrf`
(Medium), `session.dm_scope_default` (Info), the four
`control_plane.*_not_denied` findings (High) and `injection.info` (Info) —
and a health score of exactly 0. -/
theorem c10_empty_doc_scan :
    (run_scan (Json.obj []) SeverityFilter.all).isOk = true
    ∧ ¬ (scanOutcome (Json.obj []) SeverityFilter.all).findings = []
    ∧ (scanOutcome (Json.obj []) SeverityFilter.all).findings.map (fun f => f.id)
      = ["gateway.control_ui_no_origins", "sandbox.mode_off", "tools.web_fetch_no_ssrf",
         "tools.web_search_no_ssrf", "session.dm_scope_default",
         "control_plane.gateway_not_denied", "control_plane.cron_not_denied",
         "control_plane.sessions_spawn_not_denied",
         "control_plane.sessions_send_not_denied", "injection.info"]
    ∧ ((scanOutcome (Json.obj []) SeverityFilter.all).findings.filter
        (fun f => f.severity = Severity.critical)).map (fun f => f.id)
      = ["sandbox.mode_off"]
    ∧ ((scanOutcome (Json.obj []) SeverityFilter.all).findings.filter
        (fun f => f.severity = Severity.high)).map (fun f => f.id)
      = ["gateway.control_ui_no_origins", "control_plane.gateway_not_denied",
         "control_plane.cron_not_denied", "control_plane.sessions_spawn_not_denied",
         "control_plane.sessions_send_not_denied"]
    ∧ ((scanOutcome (Json.obj []) SeverityFilter.all).findings.filter
        (fun f => f.severity = Severity.medium)).map (fun f => f.id)
      = ["tools.web_fetch_no_ssrf", "tools.web_search_no_ssrf"]
    ∧ ((scanOutcome (Json.obj []) SeverityFilter.all).findings.filter
        (fun f => f.severity = Severity.info)).map (fun f => f.id)
      = ["session.dm_scope_default", "injection.info"]
    ∧ (scanOutcome (Json.obj []) SeverityFilter.all).health_score = 0 := by
  refine ⟨rfl, by decide, by decide, by decide, by decide, by decide, by decide, by decide⟩

/-- C8 counterexample: in a configuration with no deny-list configured at
all (the empty document — every control-plane entry missing), the sandbox
rule emits NO High finding and no `sandbox.tools_deny_incomplete` finding:
the `if let Some(deny_list)` guard skips the check entirely. -/
theorem c8_no_deny_list_counterexample :
    (normalizeDoc (Json.obj [])).tools.deny = none
    ∧ ((SandboxScanner.scan (normalizeDoc (Json.obj []))).filter
        (fun f => f.severity = Severity.high)) = []
    ∧ ((SandboxScanner.scan (normalizeDoc (Json.obj []))).filter
        (fun f => f.id = "sandbox.tools_deny_incomplete")) = [] := by
  refine ⟨rfl, by decide, by decide⟩

/-- C8 amended: whenever a tools deny-list IS configured and misses at
least one of gateway, cron, sessions_spawn, sessions_send, the sandbox rule
emits exactly one `sandbox.tools_deny_incomplete` finding — High severity,
whose title and description list exactly the control-plane tools absent
from the deny-list; when no deny-list is configured the sandbox rule emits
no such finding. -/
theorem c8_deny_incomplete_amended (cfg : OpenClawConfig) :
    ((SandboxScanner.scan cfg).filter
        (fun f => f.id = "sandbox.tools_deny_incomplete"))
      = (match cfg.tools.deny with
        | none => []
        | some l =>
          if SandboxScanner.missingDeny l = [] then []
          else [SandboxScanner.denyFinding (SandboxScanner.missingDeny l)])
    ∧ (∀ l, SandboxScanner.missingDeny l
        = ["gateway", "cron", "sessions_spawn", "sessions_send"].filter
            (fun t => l.contains t = false))
    ∧ (∀ m, (SandboxScanner.denyFinding m).severity = Severity.high
        ∧ (SandboxScanner.denyFinding m).id = "sandbox.tools_deny_incomplete"
        ∧ (SandboxScanner.denyFinding m).title = "tools.deny Missing: " ++ joinComma m
        ∧ (SandboxScanner.denyFinding m).description
          = "Control plane tools not in deny list: " ++ joinComma m) := by
  refine ⟨?_, ?_, fun m => ⟨rfl, rfl, rfl, rfl⟩⟩
  · unfold SandboxScanner.scan
    rw [List.filter_append, List.filter_append, List.filter_append]
    rw [filter_ite_singleton _ _ _ (by rfl), filter_ite_singleton _ _ _ (by rfl),
      filter_ite_singleton _ _ _ (by rfl)]
    simp only [List.nil_append]
    cases cfg.tools.deny with
    | none => rfl
    | some l =>
      dsimp only
      by_cases hm : SandboxScanner.missingDeny l = []
      · simp only [if_pos hm]
        rfl
      · simp only [if_neg hm]
        exact filter_singleton_self
          (SandboxScanner.denyFinding (SandboxScanner.missingDeny l))
          (fun f => decide (f.id = "sandbox.tools_deny_incomplete")) rfl
  · intro l
    have e : ∀ (t : String) (rest : List String),
        List.filter (fun t => l.contains t = false) (t :: rest)
          = (if l.contains t then [] else [t])
            ++ List.filter (fun t => l.contains t = false) rest := by
      intro t rest
      by_cases hm : t ∈ l
      · have hc : l.contains t = true := by simpa using hm
        simp [List.filter_cons, hc, hm]
      · have hc : l.contains t = false := by simpa using hm
        simp [List.filter_cons, hc, hm]
    unfold SandboxScanner.missingDeny
    rw [e, e, e, e]
    simp [List.append_assoc]

/-- C6 counterexample: a scan of a document with two dangerous safeBins
entries and two unpinned plugins emits findings whose ids are NOT pairwise
distinct — `tools.safe_bins_dangerous` and `plugins.unpinned_version` each
appear twice (one finding per offending element, under a fixed id). -/
theorem c6_duplicate_ids_counterexample :
    (run_scan dupIdDoc SeverityFilter.all).isOk = true
    ∧ ¬ ((scanOutcome dupIdDoc SeverityFilter.all).findings.map
        (fun f => f.id)).Nodup
    ∧ ((scanOutcome dupIdDoc SeverityFilter.all).findings.filter
        (fun f => f.id = "tools.safe_bins_dangerous")).length = 2
    ∧ ((scanOutcome dupIdDoc SeverityFilter.all).findings.filter
        (fun f => f.id = "plugins.unpinned_version")).length = 2 := by
  refine ⟨rfl, by decide, by decide, by decide⟩

/-- C6 amended: collection rules emit one finding per offending element,
but only the channels rule embeds the element identifier in the finding id
and config path; the tools safeBins rule emits its per-element findings
under the fixed id `tools.safe_bins_dangerous` with the entry only in the
title (so ids repeat when several safeBins entries match, as the
counterexample shows for safeBins and plugins). -/
theorem c6_per_element_findings_amended (cfg : OpenClawConfig) :
    ((ToolsScanner.scan cfg).filter (fun f => f.id = "tools.safe_bins_dangerous"))
      = (match cfg.tools.exec_safe_bins with
        | none => []
        | some l =>
          (ToolsScanner.dangerousBins.filter (fun b => l.contains b)).map
            ToolsScanner.safeBinFinding)
    ∧ (∀ b, (ToolsScanner.safeBinFinding b).id = "tools.safe_bins_dangerous"
        ∧ (ToolsScanner.safeBinFinding b).title = "Dangerous bin in safeBins: " ++ b
        ∧ (ToolsScanner.safeBinFinding b).config_path = "tools.exec.safeBins")
    ∧ (∀ f, f ∈ ChannelScanner.scan cfg →
        ∃ name ch idSuffix pathSuffix, (name, ch) ∈ cfg.channels
          ∧ f.id = "channel." ++ name ++ idSuffix
          ∧ f.config_path = "channels." ++ name ++ pathSuffix) := by
  refine ⟨?_, fun b => ⟨rfl, rfl, rfl⟩, ?_⟩
  · unfold ToolsScanner.scan
    rw [List.filter_append, List.filter_append, List.filter_append,
      List.filter_append, List.filter_append, List.filter_append]
    rw [filter_ite_singleton _ _ _ (by rfl), filter_ite_singleton _ _ _ (by rfl),
      filter_ite_singleton _ _ _ (by rfl), filter_ite_singleton _ _ _ (by rfl),
      filter_ite_singleton _ _ _ (by rfl), filter_ite_singleton _ _ _ (by rfl)]
    simp only [List.nil_append]
    cases cfg.tools.exec_safe_bins with
    | none => rfl
    | some l =>
      dsimp only
      exact filter_map_safeBin _
  · intro f hf
    unfold ChannelScanner.scan at hf
    rw [List.mem_flatten] at hf
    obtain ⟨fl, hfl, hffl⟩ := hf
    rw [List.mem_map] at hfl
    obtain ⟨⟨name, ch⟩, hmem, rfl⟩ := hfl
    refine ⟨name, ch, ?_⟩
    unfold ChannelScanner.channelFindings at hffl
    by_cases hen : ch.enabled ≠ some true
    · rw [if_pos hen] at hffl
      simp at hffl
    · rw [if_neg hen] at hffl
      simp only [List.mem_append] at hffl
      rcases hffl with (((h | h) | h) | h)
      · split at h
        · rw [List.mem_singleton] at h
          subst h
          exact ⟨".dm_policy_open", ".dmPolicy", hmem, rfl, rfl⟩
        · simp at h
      · split at h
        · rw [List.mem_singleton] at h
          subst h
          exact ⟨".dm_disabled", ".dmPolicy", hmem, rfl, rfl⟩
        · simp at h
      · split at h
        · rw [List.mem_singleton] at h
          subst h
          exact ⟨".group_policy_open", ".groupPolicy", hmem, rfl, rfl⟩
        · simp at h
      · rcases hal : ch.allow_from with _ | allow_from
        · rw [hal] at h
          simp at h
        · rw [hal] at h
          dsimp only at h
          split at h
          · rw [List.mem_singleton] at h
            subst h
            exact ⟨".allow_from_wildcard", ".allowFrom", hmem, rfl, rfl⟩
          · simp at h

/-- Witness for C6 at concrete inputs: the safeBins equation on the
duplicate-id document and the channel-identifier embedding on a document
with one open Telegram channel. -/
theorem c6_per_element_findings_amended_witness :
    (((ToolsScanner.scan (normalizeDoc dupIdDoc)).filter
        (fun f => f.id = "tools.safe_bins_dangerous"))
      = (match (normalizeDoc dupIdDoc).tools.exec_safe_bins with
        | none => []
        | some l =>
          (ToolsScanner.dangerousBins.filter (fun b => l.contains b)).map
            ToolsScanner.safeBinFinding))
    ∧ ((ToolsScanner.safeBinFinding "/bin/sh").id = "tools.safe_bins_dangerous"
        ∧ (ToolsScanner.safeBinFinding "/bin/sh").title
          = "Dangerous bin in safeBins: " ++ "/bin/sh"
        ∧ (ToolsScanner.safeBinFinding "/bin/sh").config_path = "tools.exec.safeBins")
    ∧ (∃ name ch idSuffix pathSuffix,
        (name, ch) ∈ (normalizeDoc channelOpenDoc).channels
        ∧ ((ChannelScanner.scan (normalizeDoc channelOpenDoc)).getD 0 dummyFinding).id
          = "channel." ++ name ++ idSuffix
        ∧ ((ChannelScanner.scan (normalizeDoc channelOpenDoc)).getD 0 dummyFinding).config_path
          = "channels." ++ name ++ pathSuffix) :=
  ⟨(c6_per_element_findings_amended (normalizeDoc dupIdDoc)).1,
    (c6_per_element_findings_amended (normalizeDoc dupIdDoc)).2.1 "/bin/sh",
    (c6_per_element_findings_amended (normalizeDoc channelOpenDoc)).2.2
      ((ChannelScanner.scan (normalizeDoc channelOpenDoc)).getD 0 dummyFinding)
      (by decide)⟩

/-- C7: `from_dict` returns `Ok` on every decoded tree whatsoever — the
function has no error path — and any absent or mis-shaped section is
projected to the all-unset default of that section (never an error). -/
theorem c7_from_dict_total (data : Json) :
    ∃ cfg, OpenClawConfig.from_dict data = Except.ok cfg
      ∧ cfg.raw = data
      ∧ (((jsonGet data "gateway").bind Json.asObjO).isNone = true →
          cfg.gateway = {})
      ∧ (((jsonGet data "tools").bind Json.asObjO).isNone = true →
          cfg.tools = {})
      ∧ (((jsonGet data "agents").bind Json.asObjO).isNone = true →
          cfg.sandbox = {})
      ∧ (((jsonGet data "session").bind Json.asObjO).isNone = true →
          cfg.session = {})
      ∧ ((jsonGet data "channels").isNone = true → cfg.channels = []) := by
  refine ⟨_, rfl, rfl, ?_, ?_, ?_, ?_, ?_⟩
  · intro h
    show parseGateway data = {}
    unfold parseGateway
    cases hx : (jsonGet data "gateway").bind Json.asObjO with
    | none => rfl
    | some g => rw [hx] at h; simp at h
  · intro h
    show parseTools data = {}
    unfold parseTools
    cases hx : (jsonGet data "tools").bind Json.asObjO with
    | none => rfl
    | some g => rw [hx] at h; simp at h
  · intro h
    show parseSandbox data = {}
    unfold parseSandbox
    cases hx : (jsonGet data "agents").bind Json.asObjO with
    | none => rfl
    | some g => rw [hx] at h; simp at h
  · intro h
    show parseSession data = {}
    unfold parseSession
    cases hx : (jsonGet data "session").bind Json.asObjO with
    | none => rfl
    | some g => rw [hx] at h; simp at h
  · intro h
    show parseChannels data = []
    unfold parseChannels
    cases hx : jsonGet data "channels" with
    | none => rfl
    | some v => rw [hx] at h; simp at h

/-- Witness for C7 at two concrete inputs: a non-object tree (every section
mis-shaped, all sections unset) and an object with a wrong-typed `gateway`
field. -/
theorem c7_from_dict_total_witness :
    (∃ cfg, OpenClawConfig.from_dict (Json.num 5) = Except.ok cfg
      ∧ cfg.raw = Json.num 5
      ∧ (((jsonGet (Json.num 5) "gateway").bind Json.asObjO).isNone = true →
          cfg.gateway = {})
      ∧ (((jsonGet (Json.num 5) "tools").bind Json.asObjO).isNone = true →
          cfg.tools = {})
      ∧ (((jsonGet (Json.num 5) "agents").bind Json.asObjO).isNone = true →
          cfg.sandbox = {})
      ∧ (((jsonGet (Json.num 5) "session").bind Json.asObjO).isNone = true →
          cfg.session = {})
      ∧ ((jsonGet (Json.num 5) "channels").isNone = true → cfg.channels = []))
    ∧ (normalizeDoc (Json.obj [("gateway", Json.str "oops")])).gateway = {} :=
  ⟨c7_from_dict_total (Json.num 5), by decide⟩

/-- Witness for C5 at a concrete two-element permutation. -/
theorem c5_incremental_eq_single_pass_perm_witness :
    (([Finding.new "b" "m" Severity.high "t" "d" "i" "r" "p",
       Finding.new "a" "m" Severity.critical "t" "d" "i" "r" "p"].foldl
        ScanResult.add_finding ScanResult.new).health_score
      = clampScore (100 + weightSum
          [Finding.new "a" "m" Severity.critical "t" "d" "i" "r" "p",
           Finding.new "b" "m" Severity.high "t" "d" "i" "r" "p"])) :=
  c5_incremental_eq_single_pass_perm _ _
    (List.Perm.swap (Finding.new "b" "m" Severity.high "t" "d" "i" "r" "p")
      (Finding.new "a" "m" Severity.critical "t" "d" "i" "r" "p") [])

end DinoAiss
